import Mathlib

/-!
Verification of the four-node forest-column energy-balance backend
(`run_simulation.py`).  The Python source is shallowly embedded: every
float is modelled as a real number, `numpy` transcendental functions as
their `Real` counterparts, Python dictionaries as association lists, the
NumPy random generator as an explicit stream `u : ℕ → ℝ` of unit draws
(each `rng.uniform a b` consumes one stream element `a + (b - a) * u i`),
and the external `scipy.optimize.least_squares` call as an abstract
deterministic solver function.  `raise ValueError` is modelled by an
`Option` return.
-/

open Classical

noncomputable section

namespace EB

/-- Stefan-Boltzmann constant [W m-2 K-4]. -/
def SIGMA : ℝ := 5.670374419e-8

/-- Air density [kg m-3]. -/
def RHO_AIR : ℝ := 1.225

/-- Specific heat of air [J kg-1 K-1]. -/
def CP_AIR : ℝ := 1005

/-- von Kármán constant. -/
def KAPPA : ℝ := 0.41

/-- Residual scaling constant. -/
def NDIM_FLUX : ℝ := 100

/-- Psychrometric constant γ [kPa K⁻¹]. -/
def PSYCHROMETRIC_GAMMA : ℝ := 0.066

/-- Machine epsilon `np.finfo(float).eps` = 2⁻⁵². -/
def EPS : ℝ := 1 / 2 ^ 52

/-- `esat_kPa`: saturation vapour pressure (Tetens formula). -/
def esat_kPa (T : ℝ) : ℝ :=
  0.6108 * Real.exp (17.27 * (T - 273.15) / ((T - 273.15) + 237.3))

/-- `delta_svp_kPa_per_K`: slope of the saturation-vapour-pressure curve. -/
def delta_svp_kPa_per_K (T : ℝ) : ℝ :=
  4098.0 * esat_kPa T / ((T - 273.15) + 237.3) ^ 2

/-- `h_aero`: aerodynamic-resistance convective coefficient. -/
def h_aero (u z_ref z0 : ℝ) : ℝ :=
  let u' := max u 0.1
  let ra := (Real.log (z_ref / z0)) ^ 2 / (KAPPA ^ 2 * u')
  RHO_AIR * CP_AIR / ra

/-- `eff_emissivity`: combined grey-body emissivity of a surface pair. -/
def eff_emissivity (ei ej : ℝ) : ℝ :=
  let ei' := max ei EPS
  let ej' := max ej EPS
  1 / (1 / ei' + 1 / ej' - 1)

/-- `lw_pair`: pairwise net longwave exchange over contact area `A`. -/
def lw_pair (ei A Ti ej Tj : ℝ) : ℝ :=
  if A ≤ 0 then 0 else SIGMA * eff_emissivity ei ej * A * (Ti ^ 4 - Tj ^ 4)

/-- `canopy_overlap`: split of the canopy's downward view between snow and
soil, returning `(A_can_snow, A_can_soil, A_can_sky)`. -/
def canopy_overlap (A_can A_snow A_soil : ℝ) : ℝ × ℝ × ℝ :=
  let ground := A_snow + A_soil
  if A_can = 0 ∨ ground = 0 then (0, 0, 0)
  else
    let cap := min A_can ground
    (cap * (A_snow / ground), cap * (A_soil / ground), A_can - cap)

end EB

namespace EB

/-- The scenario dictionary returned by `sample_parameters`, with one field
per dictionary key (`d_s` is the snow depth `d_snow`). -/
structure Params where
  Q_solar : ℝ
  alpha_can : ℝ
  alpha_snow : ℝ
  alpha_soil : ℝ
  alpha_trunk : ℝ
  K_can : ℝ
  eps_can : ℝ
  eps_snow : ℝ
  eps_soil : ℝ
  eps_trunk : ℝ
  A_can : ℝ
  A_trunk_plan : ℝ
  A_trunk_vert : ℝ
  A_snow : ℝ
  A_soil : ℝ
  LAI : ℝ
  h_can : ℝ
  h_trunk : ℝ
  h_snow : ℝ
  h_soil : ℝ
  k_ct : ℝ
  k_ts : ℝ
  k_tsn : ℝ
  k_s : ℝ
  k_soil : ℝ
  d_ct : ℝ
  d_ts : ℝ
  d_tsn : ℝ
  d_s : ℝ
  d_soil : ℝ
  A_c2t : ℝ
  A_t2s : ℝ
  A_t2sn : ℝ
  Lv : ℝ
  Lf : ℝ
  dot_m_vap_can : ℝ
  dot_m_vap_soil : ℝ
  dot_m_photo : ℝ
  dot_m_melt : ℝ
  dH_photo : ℝ
  RH : ℝ
  VPD : ℝ
  theta_rel : ℝ
  T_atm : ℝ
  T_deep : ℝ
  season : String
  forest_type : String
  Hsnow : ℝ
  u : ℝ
  dT_target : ℝ
  H_canopy : ℝ

/-- Python `str.lower()` (character-wise ASCII lowercasing). -/
def strLower (s : String) : String := String.mk (s.data.map Char.toLower)

/-- One `rng.uniform a b` call realised from the unit-draw stream `u` at
stream position `i`. -/
def U (u : ℕ → ℝ) (i : ℕ) (a b : ℝ) : ℝ := a + (b - a) * u i

/-- `freeze_mult`: conductivity multiplier below freezing. -/
def freeze_mult (T : ℝ) : ℝ := if T < 273.15 then 1.6 else 1

/-- `stability_factor` (closure over the lowercased season). -/
def stability_factor (ssn : String) (u_ : ℝ) : ℝ :=
  if ssn ≠ "winter" ∨ 1 ≤ u_ then 1 else 0.3 + 0.7 * u_

/-- The tail of `sample_parameters` (source lines 124-200), shared by the
three forest-type branches; `j` is the next unread stream position after the
forest-type-conditioned draws.  Returns the scenario and the next unread
stream position. -/
def sampleRest (ssn ft : String) (u : ℕ → ℝ)
    (T_atm Q_solar T_deep k_soil d_soil RH theta_rel uw dT_target
     alpha_can A_can LAI k_ct : ℝ) (j : ℕ) : Params × ℕ :=
  let VPD := (1 - RH) * esat_kPa T_atm
  let f_vpd := max 0 (1 - Real.sqrt (VPD / 3))
  let stab := stability_factor ssn uw
  let A_trunk_plan := if ft ≠ "none" then U u j 0.01 0.05 else 0
  let A_trunk_vert := if ft ≠ "none" then U u (j + 1) 1 3 * A_trunk_plan else 0
  let j1 := if ft ≠ "none" then j + 2 else j
  let k_ts := 0.8 * k_ct
  let k_tsn := 0.2 * k_ct
  let snow_frac := if ssn = "summer" then (if 278 < T_atm then 0 else U u j1 0 0.05)
                   else U u j1 0.60 1.00
  let j2 := if ssn = "summer" ∧ 278 < T_atm then j1 else j1 + 1
  let A_snow0 := (1 - A_trunk_plan) * snow_frac
  let A_soil := 1 - A_trunk_plan - A_snow0
  let A_snow := if A_snow0 < 1e-3 then 0 else A_snow0
  let H_canopy := if 0 < A_can then U u j2 10 20 else 0
  let j3 := if 0 < A_can then j2 + 1 else j2
  let h_can := if A_can ≠ 0 ∧ 0 < H_canopy
               then min (h_aero uw H_canopy (0.1 * H_canopy) * stab) (25 + 5 * theta_rel)
               else 1e6
  let h_trunk := if A_trunk_vert ≠ 0 then (5 + 4 * uw) * stab else 0
  let h_soil := min (h_aero uw 2 0.01 * stab) 40
  let h_snow := 0.5 * h_soil
  let k_ext := U u j3 0.4 0.6
  let j4 := j3 + 1
  let K_can := if A_can ≠ 0 then Real.exp (-k_ext * LAI) else 0
  let alpha_snow := if A_snow ≠ 0 then U u j4 0.60 0.90 else 0
  let j5 := if A_snow ≠ 0 then j4 + 1 else j4
  let alpha_soil := U u j5 0.10 0.30
  let j6 := j5 + 1
  let alpha_trunk := if A_trunk_plan ≠ 0 then U u j6 0.15 0.35 else 0
  let j7 := if A_trunk_plan ≠ 0 then j6 + 1 else j6
  let eps_can := if A_can ≠ 0 then U u j7 0.94 1 else 0
  let j8 := if A_can ≠ 0 then j7 + 1 else j7
  let eps_snow := if A_snow ≠ 0 then U u j8 0.95 1 else 0
  let j9 := if A_snow ≠ 0 then j8 + 1 else j8
  let eps_soil := U u j9 0.90 1
  let j10 := j9 + 1
  let eps_trunk := if A_trunk_vert ≠ 0 then U u j10 0.90 0.98 else 0
  let j11 := if A_trunk_vert ≠ 0 then j10 + 1 else j10
  let Hsnow := if A_snow ≠ 0 then U u j11 0.05 1 else 0
  let j12 := if A_snow ≠ 0 then j11 + 1 else j11
  let d_ct := if A_can ≠ 0 ∧ A_trunk_plan ≠ 0 then U u j12 0.05 0.20 else 0
  let j13 := if A_can ≠ 0 ∧ A_trunk_plan ≠ 0 then j12 + 1 else j12
  let d_ts := if A_trunk_plan ≠ 0 then U u j13 0.05 0.10 else 0
  let j14 := if A_trunk_plan ≠ 0 then j13 + 1 else j13
  let d_tsn := if A_trunk_plan ≠ 0 ∧ A_snow ≠ 0 then U u j14 0.05 0.10 else 0
  let j15 := if A_trunk_plan ≠ 0 ∧ A_snow ≠ 0 then j14 + 1 else j14
  let d_snow := if A_snow ≠ 0 then max Hsnow 0.05 else 0
  let A_c2t := if A_can ≠ 0 ∧ A_trunk_plan ≠ 0 then U u j15 0.03 0.15 else 0
  let j16 := if A_can ≠ 0 ∧ A_trunk_plan ≠ 0 then j15 + 1 else j15
  let A_t2s := if A_trunk_plan ≠ 0 then U u j16 0.01 0.05 else 0
  let j17 := if A_trunk_plan ≠ 0 then j16 + 1 else j16
  let A_t2sn := if A_trunk_plan ≠ 0 ∧ A_snow ≠ 0 then U u j17 0.01 0.05 else 0
  let j18 := if A_trunk_plan ≠ 0 ∧ A_snow ≠ 0 then j17 + 1 else j17
  let k_s := if A_snow ≠ 0 then U u j18 0.05 0.80 else 0
  let j19 := if A_snow ≠ 0 then j18 + 1 else j18
  let Lv : ℝ := 2.5e6
  let Lf : ℝ := 3.34e5
  let dH_photo : ℝ := 2.8e7
  let Delta := delta_svp_kPa_per_K T_atm
  let fr_PT := Delta / (Delta + PSYCHROMETRIC_GAMMA)
  let Rn_can := if 0 < A_can then A_can * Q_solar * (1 - alpha_can) * (1 - K_can) else 0
  let Rn_soil := A_soil * Q_solar * (1 - alpha_soil)
  let pt_mass := fun Rn_val : ℝ => 1.26 * fr_PT * max Rn_val 0 / Lv
  let m_vap_can0 := f_vpd * pt_mass Rn_can
  let m_vap_soil0 := f_vpd * theta_rel ^ 2 * pt_mass Rn_soil
  let dot_m_vap_can := if ssn = "winter" then 0.4 * m_vap_can0 else m_vap_can0
  let dot_m_vap_soil := if ssn = "winter" then 0.25 * m_vap_soil0 else m_vap_soil0
  let dot_m_photo := if ssn = "summer" ∧ 0 < A_can then U u j19 0 3e-6 * A_can else 0
  let j20 := if ssn = "summer" ∧ 0 < A_can then j19 + 1 else j19
  let Rn_snow_proxy := if 0 < A_snow then A_snow * Q_solar * (1 - alpha_snow) else 0
  let dot_m_melt := if ssn = "winter" ∧ A_snow ≠ 0 then 0.8 * max Rn_snow_proxy 0 / Lf else 0
  (⟨Q_solar, alpha_can, alpha_snow, alpha_soil, alpha_trunk, K_can,
    eps_can, eps_snow, eps_soil, eps_trunk,
    A_can, A_trunk_plan, A_trunk_vert, A_snow, A_soil, LAI,
    h_can, h_trunk, h_snow, h_soil,
    k_ct, k_ts, k_tsn, k_s, k_soil,
    d_ct, d_ts, d_tsn, d_snow, d_soil,
    A_c2t, A_t2s, A_t2sn,
    Lv, Lf, dot_m_vap_can, dot_m_vap_soil, dot_m_photo, dot_m_melt, dH_photo,
    RH, VPD, theta_rel, T_atm, T_deep, ssn, ft, Hsnow, uw, dT_target, H_canopy⟩, j20)

/-- `sample_parameters`: one random scenario, reading unit draws from the
stream `u` starting at position `i`.  `none` models the `ValueError` raised
for an unrecognised forest type. -/
def sample_parameters (season forest_type : String) (u : ℕ → ℝ) (i : ℕ) :
    Option (Params × ℕ) :=
  let ssn := strLower season
  let ft := strLower forest_type
  let T_atm := if ssn = "summer" then U u i 293 303 else U u i 258 273
  let Q_solar := if ssn = "summer" then U u (i + 1) 400 800 else U u (i + 1) 50 200
  let T_deep := if ssn = "summer" then T_atm + U u (i + 2) (-4) (-2) else U u (i + 2) 268 274
  let k_soil := if ssn = "summer" then U u (i + 3) 0.5 1.5 else U u (i + 3) 0.8 1.3
  let d_soil := if ssn = "summer" then U u (i + 4) 1.5 3 else U u (i + 4) 2 4
  let RH := if ssn = "summer" then U u (i + 5) 0.60 1 else U u (i + 5) 0.70 1
  let theta_rel := U u (i + 6) 0.40 1
  let u_max : ℝ := if ft = "none" then 2 else 3
  let uw := U u (i + 7) 0.5 u_max
  let dT_target := U u (i + 8) 1 7
  if ft = "coniferous" then
    let alpha_can := U u (i + 9) 0.05 0.10
    let A_can := if ssn = "summer" then U u (i + 10) 0.5 0.8 else U u (i + 10) 0.4 0.7
    let LAI := U u (i + 11) 3 5
    let k_ct := U u (i + 12) 0.12 0.25 * freeze_mult T_atm
    some (sampleRest ssn ft u T_atm Q_solar T_deep k_soil d_soil RH theta_rel uw
      dT_target alpha_can A_can LAI k_ct (i + 13))
  else if ft = "deciduous" then
    let alpha_can := U u (i + 9) 0.15 0.20
    let A_can := if ssn = "summer" then U u (i + 10) 0.6 0.9 else U u (i + 10) 0.1 0.2
    let LAI := if ssn = "summer" then U u (i + 11) 4 6 else U u (i + 11) 0.3 0.7
    let k_ct := U u (i + 12) 0.08 0.18 * freeze_mult T_atm
    some (sampleRest ssn ft u T_atm Q_solar T_deep k_soil d_soil RH theta_rel uw
      dT_target alpha_can A_can LAI k_ct (i + 13))
  else if ft = "none" then
    some (sampleRest ssn ft u T_atm Q_solar T_deep k_soil d_soil RH theta_rel uw
      dT_target 0 0 0 0 (i + 9))
  else none

/-- `energy_balance`: the four normalised node residuals
`[f_can, f_trunk, f_snow, f_soil]` at temperature state
`v = [T_can, T_trunk, T_snow, T_soil]` (source lines 216-271). -/
def energy_balance (v : Fin 4 → ℝ) (p : Params) : Fin 4 → ℝ :=
  let T_can := v 0
  let T_trunk := v 1
  let T_snow := v 2
  let T_soil := v 3
  let A_can := p.A_can
  let A_tp := p.A_trunk_plan
  let A_snow := p.A_snow
  let A_soil := p.A_soil
  let co := canopy_overlap A_can A_snow A_soil
  let A_can_snow := co.1
  let A_can_soil := co.2.1
  let A_snow_sky := A_snow - A_can_snow
  let A_soil_sky := A_soil - A_can_soil
  let eps_atm := min 0.9 (0.8 + 0.2 * Real.tanh ((p.T_atm - 260) / 15))
  let LW_down := eps_atm * SIGMA * p.T_atm ^ 4
  let Q := p.Q_solar
  let gap := 1 - min A_can 1
  let SW_trans := if A_can ≠ 0 then A_can * Q * (1 - p.alpha_can) * p.K_can else 0
  let SW_can_abs := if A_can ≠ 0 then A_can * Q * (1 - p.alpha_can) * (1 - p.K_can) else 0
  let SW_trunk_dir := if A_tp ≠ 0 then gap * A_tp * Q * (1 - p.alpha_trunk) else 0
  let SW_trunk_can := if A_tp ≠ 0 then A_tp * SW_trans * (1 - p.alpha_trunk) else 0
  let SW_snow_dir := if A_snow ≠ 0 then A_snow_sky * Q * (1 - p.alpha_snow) else 0
  let SW_snow_can := if A_snow ≠ 0 then A_can_snow * SW_trans * (1 - p.alpha_snow) else 0
  let SW_soil_dir := A_soil_sky * Q * (1 - p.alpha_soil)
  let SW_soil_can := A_can_soil * SW_trans * (1 - p.alpha_soil)
  let F_can_snow := if A_can ≠ 0 ∧ A_snow ≠ 0
    then lw_pair p.eps_can (A_can_snow * Real.exp (-0.5 * p.LAI)) T_can p.eps_snow T_snow
    else 0
  let F_can_soil := if A_can ≠ 0
    then lw_pair p.eps_can (A_can_soil * Real.exp (-0.5 * p.LAI)) T_can p.eps_soil T_soil
    else 0
  let cond_can_trunk := if p.A_c2t ≠ 0
    then (p.k_ct * p.A_c2t / max p.d_ct EPS) * (T_can - T_trunk) else 0
  let cond_trunk_soil := if p.A_t2s ≠ 0
    then (p.k_ts * p.A_t2s / max p.d_ts EPS) * (T_trunk - T_soil) else 0
  let cond_trunk_snow := if p.A_t2sn ≠ 0 ∧ A_snow ≠ 0
    then p.A_t2sn * (T_trunk - T_snow) /
      max (p.d_tsn / max p.k_tsn EPS + p.d_s / max p.k_s EPS) EPS
    else 0
  let cond_snow_soil := if A_snow ≠ 0
    then (p.k_s * A_snow / max p.d_s EPS) * (T_snow - T_soil) else 0
  let A_ground := A_soil + A_snow
  let cond_soil_deep := if A_ground ≠ 0
    then A_ground * p.k_soil / max p.d_soil EPS * (T_soil - p.T_deep) else 0
  let F_trunk_sky := if 0 < A_can then 0.4 else 1
  let LW_can_atm := if A_can ≠ 0 then p.eps_can * A_can * (LW_down - SIGMA * T_can ^ 4) else 0
  let LW_trunk_atm := if p.A_trunk_vert ≠ 0
    then p.eps_trunk * p.A_trunk_vert * F_trunk_sky * (LW_down - SIGMA * T_trunk ^ 4) else 0
  let LW_snow_atm := if A_snow ≠ 0 then p.eps_snow * A_snow_sky * (LW_down - SIGMA * T_snow ^ 4) else 0
  let LW_soil_atm := p.eps_soil * A_soil_sky * (LW_down - SIGMA * T_soil ^ 4)
  let conv_can_atm := if A_can ≠ 0 then p.h_can * A_can * (T_can - p.T_atm) else 0
  let conv_trunk_atm := if p.A_trunk_vert ≠ 0
    then p.h_trunk * p.A_trunk_vert * (T_trunk - p.T_atm) else 0
  let conv_snow_atm := if A_snow ≠ 0 then p.h_snow * A_snow * (T_snow - p.T_atm) else 0
  let conv_soil_atm := p.h_soil * A_soil * (T_soil - p.T_atm)
  let evap_can := if A_can ≠ 0 then p.Lv * p.dot_m_vap_can else 0
  let evap_soil := p.Lv * p.dot_m_vap_soil
  let photo_can := if A_can ≠ 0 then p.dH_photo * p.dot_m_photo else 0
  let melt_snow := if A_snow ≠ 0 ∧ 273.15 ≤ T_snow then p.Lf * p.dot_m_melt else 0
  let f_can := if A_can ≠ 0
    then (SW_can_abs - F_can_snow - F_can_soil + LW_can_atm - cond_can_trunk -
      conv_can_atm - evap_can - photo_can) / NDIM_FLUX
    else T_can - p.T_atm
  let f_trunk := if A_tp ≠ 0
    then (SW_trunk_dir + SW_trunk_can + LW_trunk_atm + cond_can_trunk - cond_trunk_soil -
      cond_trunk_snow - conv_trunk_atm) / NDIM_FLUX
    else T_trunk - p.T_atm
  let f_snow := if A_snow ≠ 0
    then (SW_snow_dir + SW_snow_can + F_can_snow + LW_snow_atm + cond_trunk_snow -
      cond_snow_soil - conv_snow_atm - melt_snow) / NDIM_FLUX
    else T_snow - p.T_atm
  let f_soil := (SW_soil_dir + SW_soil_can + F_can_soil + LW_soil_atm + cond_trunk_soil +
    cond_snow_soil - conv_soil_atm - cond_soil_deep - evap_soil) / NDIM_FLUX
  ![f_can, f_trunk, f_snow, f_soil]

/-- The unnormalised per-node sums of signed flux terms
`(canopy, trunk, snow, soil)` that the residuals of `energy_balance` divide
by `NDIM_FLUX`; each term is spelled exactly as in source lines 222-259. -/
def node_flux_sums (v : Fin 4 → ℝ) (p : Params) : ℝ × ℝ × ℝ × ℝ :=
  let T_can := v 0
  let T_trunk := v 1
  let T_snow := v 2
  let T_soil := v 3
  let A_can := p.A_can
  let A_tp := p.A_trunk_plan
  let A_snow := p.A_snow
  let A_soil := p.A_soil
  let co := canopy_overlap A_can A_snow A_soil
  let A_can_snow := co.1
  let A_can_soil := co.2.1
  let A_snow_sky := A_snow - A_can_snow
  let A_soil_sky := A_soil - A_can_soil
  let eps_atm := min 0.9 (0.8 + 0.2 * Real.tanh ((p.T_atm - 260) / 15))
  let LW_down := eps_atm * SIGMA * p.T_atm ^ 4
  let Q := p.Q_solar
  let gap := 1 - min A_can 1
  let SW_trans := if A_can ≠ 0 then A_can * Q * (1 - p.alpha_can) * p.K_can else 0
  let SW_can_abs := if A_can ≠ 0 then A_can * Q * (1 - p.alpha_can) * (1 - p.K_can) else 0
  let SW_trunk_dir := if A_tp ≠ 0 then gap * A_tp * Q * (1 - p.alpha_trunk) else 0
  let SW_trunk_can := if A_tp ≠ 0 then A_tp * SW_trans * (1 - p.alpha_trunk) else 0
  let SW_snow_dir := if A_snow ≠ 0 then A_snow_sky * Q * (1 - p.alpha_snow) else 0
  let SW_snow_can := if A_snow ≠ 0 then A_can_snow * SW_trans * (1 - p.alpha_snow) else 0
  let SW_soil_dir := A_soil_sky * Q * (1 - p.alpha_soil)
  let SW_soil_can := A_can_soil * SW_trans * (1 - p.alpha_soil)
  let F_can_snow := if A_can ≠ 0 ∧ A_snow ≠ 0
    then lw_pair p.eps_can (A_can_snow * Real.exp (-0.5 * p.LAI)) T_can p.eps_snow T_snow
    else 0
  let F_can_soil := if A_can ≠ 0
    then lw_pair p.eps_can (A_can_soil * Real.exp (-0.5 * p.LAI)) T_can p.eps_soil T_soil
    else 0
  let cond_can_trunk := if p.A_c2t ≠ 0
    then (p.k_ct * p.A_c2t / max p.d_ct EPS) * (T_can - T_trunk) else 0
  let cond_trunk_soil := if p.A_t2s ≠ 0
    then (p.k_ts * p.A_t2s / max p.d_ts EPS) * (T_trunk - T_soil) else 0
  let cond_trunk_snow := if p.A_t2sn ≠ 0 ∧ A_snow ≠ 0
    then p.A_t2sn * (T_trunk - T_snow) /
      max (p.d_tsn / max p.k_tsn EPS + p.d_s / max p.k_s EPS) EPS
    else 0
  let cond_snow_soil := if A_snow ≠ 0
    then (p.k_s * A_snow / max p.d_s EPS) * (T_snow - T_soil) else 0
  let A_ground := A_soil + A_snow
  let cond_soil_deep := if A_ground ≠ 0
    then A_ground * p.k_soil / max p.d_soil EPS * (T_soil - p.T_deep) else 0
  let F_trunk_sky := if 0 < A_can then 0.4 else 1
  let LW_can_atm := if A_can ≠ 0 then p.eps_can * A_can * (LW_down - SIGMA * T_can ^ 4) else 0
  let LW_trunk_atm := if p.A_trunk_vert ≠ 0
    then p.eps_trunk * p.A_trunk_vert * F_trunk_sky * (LW_down - SIGMA * T_trunk ^ 4) else 0
  let LW_snow_atm := if A_snow ≠ 0 then p.eps_snow * A_snow_sky * (LW_down - SIGMA * T_snow ^ 4) else 0
  let LW_soil_atm := p.eps_soil * A_soil_sky * (LW_down - SIGMA * T_soil ^ 4)
  let conv_can_atm := if A_can ≠ 0 then p.h_can * A_can * (T_can - p.T_atm) else 0
  let conv_trunk_atm := if p.A_trunk_vert ≠ 0
    then p.h_trunk * p.A_trunk_vert * (T_trunk - p.T_atm) else 0
  let conv_snow_atm := if A_snow ≠ 0 then p.h_snow * A_snow * (T_snow - p.T_atm) else 0
  let conv_soil_atm := p.h_soil * A_soil * (T_soil - p.T_atm)
  let evap_can := if A_can ≠ 0 then p.Lv * p.dot_m_vap_can else 0
  let evap_soil := p.Lv * p.dot_m_vap_soil
  let photo_can := if A_can ≠ 0 then p.dH_photo * p.dot_m_photo else 0
  let melt_snow := if A_snow ≠ 0 ∧ 273.15 ≤ T_snow then p.Lf * p.dot_m_melt else 0
  (SW_can_abs - F_can_snow - F_can_soil + LW_can_atm - cond_can_trunk -
     conv_can_atm - evap_can - photo_can,
   SW_trunk_dir + SW_trunk_can + LW_trunk_atm + cond_can_trunk - cond_trunk_soil -
     cond_trunk_snow - conv_trunk_atm,
   SW_snow_dir + SW_snow_can + F_can_snow + LW_snow_atm + cond_trunk_snow -
     cond_snow_soil - conv_snow_atm - melt_snow,
   SW_soil_dir + SW_soil_can + F_can_soil + LW_soil_atm + cond_trunk_soil +
     cond_snow_soil - conv_soil_atm - cond_soil_deep - evap_soil)

/-- Sum of the values of a flux section, as `sum(flux[node].values())`. -/
def sumVals (l : List (String × ℝ)) : ℝ := (l.map Prod.snd).sum

/-- `compute_flux_components` (source lines 277-344): the labelled per-node
flux breakdown, as an association list in Python dict insertion order.  A
node's section is present only when its area is nonzero; soil is always
present; each section ends with a `"net"` entry holding the sum of the
section's values. -/
def compute_flux_components (v : Fin 4 → ℝ) (p : Params) :
    List (String × List (String × ℝ)) :=
  let T_can := v 0
  let T_trunk := v 1
  let T_snow := v 2
  let T_soil := v 3
  let A_can := p.A_can
  let A_tp := p.A_trunk_plan
  let A_tv := p.A_trunk_vert
  let A_snow := p.A_snow
  let A_soil := p.A_soil
  let co := canopy_overlap A_can A_snow A_soil
  let A_can_snow := co.1
  let A_can_soil := co.2.1
  let A_snow_sky := A_snow - A_can_snow
  let A_soil_sky := A_soil - A_can_soil
  let A_can_snow_eff := if A_can ≠ 0 ∧ A_snow ≠ 0 then A_can_snow * Real.exp (-0.5 * p.LAI) else 0
  let A_can_soil_eff := if A_can ≠ 0 then A_can_soil * Real.exp (-0.5 * p.LAI) else 0
  let eps_atm := min 0.9 (0.8 + 0.2 * Real.tanh ((p.T_atm - 260) / 15))
  let LW_down := eps_atm * SIGMA * p.T_atm ^ 4
  let Q := p.Q_solar
  let gap := 1 - min A_can 1
  let SW_tr := if A_can ≠ 0 then A_can * Q * (1 - p.alpha_can) * p.K_can else 0
  let SW_abs := if A_can ≠ 0 then A_can * Q * (1 - p.alpha_can) * (1 - p.K_can) else 0
  let SW_trunk_dir := if A_tp ≠ 0 then gap * A_tp * Q * (1 - p.alpha_trunk) else 0
  let SW_trunk_can := if A_tp ≠ 0 then A_tp * SW_tr * (1 - p.alpha_trunk) else 0
  let SW_snow_dir := if A_snow ≠ 0 then A_snow_sky * Q * (1 - p.alpha_snow) else 0
  let SW_snow_can := if A_snow ≠ 0 then A_can_snow * SW_tr * (1 - p.alpha_snow) else 0
  let SW_soil_dir := A_soil_sky * Q * (1 - p.alpha_soil)
  let SW_soil_can := A_can_soil * SW_tr * (1 - p.alpha_soil)
  let F_can_snow := lw_pair p.eps_can A_can_snow_eff T_can p.eps_snow T_snow
  let F_can_soil := lw_pair p.eps_can A_can_soil_eff T_can p.eps_soil T_soil
  let cond_can_trunk := if p.A_c2t ≠ 0
    then p.k_ct * p.A_c2t / max p.d_ct EPS * (T_can - T_trunk) else 0
  let cond_trunk_soil := if p.A_t2s ≠ 0
    then p.k_ts * p.A_t2s / max p.d_ts EPS * (T_trunk - T_soil) else 0
  let cond_trunk_snow := if p.A_t2sn ≠ 0 ∧ A_snow ≠ 0
    then p.A_t2sn * (T_trunk - T_snow) /
      max (p.d_tsn / max p.k_tsn EPS + p.d_s / max p.k_s EPS) EPS
    else 0
  let cond_snow_soil := if A_snow ≠ 0
    then p.k_s * A_snow / max p.d_s EPS * (T_snow - T_soil) else 0
  let A_ground := A_soil + A_snow
  let cond_soil_deep := if A_ground ≠ 0
    then A_ground * p.k_soil / max p.d_soil EPS * (T_soil - p.T_deep) else 0
  let F_trunk_sky := if 0 < A_can then 0.4 else 1
  let LW_can_atm := if A_can ≠ 0 then p.eps_can * A_can * (LW_down - SIGMA * T_can ^ 4) else 0
  let LW_trunk_atm := if A_tv ≠ 0
    then p.eps_trunk * A_tv * F_trunk_sky * (LW_down - SIGMA * T_trunk ^ 4) else 0
  let LW_snow_atm := if A_snow ≠ 0 then p.eps_snow * A_snow_sky * (LW_down - SIGMA * T_snow ^ 4) else 0
  let LW_soil_atm := p.eps_soil * A_soil_sky * (LW_down - SIGMA * T_soil ^ 4)
  let conv_can_atm := if A_can ≠ 0 then p.h_can * A_can * (T_can - p.T_atm) else 0
  let conv_trunk_atm := if A_tv ≠ 0 then p.h_trunk * A_tv * (T_trunk - p.T_atm) else 0
  let conv_snow_atm := if A_snow ≠ 0 then p.h_snow * A_snow * (T_snow - p.T_atm) else 0
  let conv_soil_atm := p.h_soil * A_soil * (T_soil - p.T_atm)
  let evap_can := if A_can ≠ 0 then p.Lv * p.dot_m_vap_can else 0
  let evap_soil := p.Lv * p.dot_m_vap_soil
  let photo_can := if A_can ≠ 0 then p.dH_photo * p.dot_m_photo else 0
  let melt_snow := if A_snow ≠ 0 ∧ 273.15 ≤ T_snow then p.Lf * p.dot_m_melt else 0
  let canSec : List (String × ℝ) :=
    [("SW_abs", SW_abs), ("LW_atm", LW_can_atm), ("LW_to_snow", -F_can_snow),
     ("LW_to_soil", -F_can_soil), ("conv_atm", -conv_can_atm),
     ("cond_to_trunk", -cond_can_trunk), ("latent_evap", -evap_can),
     ("latent_photo", -photo_can)]
  let trunkSec : List (String × ℝ) :=
    [("SW_dir", SW_trunk_dir), ("SW_can", SW_trunk_can), ("LW_atm", LW_trunk_atm),
     ("cond_from_can", cond_can_trunk), ("cond_to_soil", -cond_trunk_soil),
     ("cond_to_snow", -cond_trunk_snow), ("conv_atm", -conv_trunk_atm)]
  let snowSec : List (String × ℝ) :=
    [("SW_dir", SW_snow_dir), ("SW_can", SW_snow_can), ("LW_atm", LW_snow_atm),
     ("LW_from_can", F_can_snow), ("cond_from_trunk", cond_trunk_snow),
     ("cond_to_soil", -cond_snow_soil), ("conv_atm", -conv_snow_atm),
     ("melt_sink", -melt_snow)]
  let soilSec : List (String × ℝ) :=
    [("SW_dir", SW_soil_dir), ("SW_can", SW_soil_can), ("LW_atm", LW_soil_atm),
     ("LW_from_can", F_can_soil), ("cond_from_trunk", cond_trunk_soil),
     ("cond_from_snow", cond_snow_soil), ("conv_atm", -conv_soil_atm),
     ("latent_evap", -evap_soil), ("cond_to_deep", -cond_soil_deep)]
  (if A_can ≠ 0 then [("canopy", canSec ++ [("net", sumVals canSec)])] else []) ++
  (if A_tp ≠ 0 then [("trunk", trunkSec ++ [("net", sumVals trunkSec)])] else []) ++
  (if A_snow ≠ 0 then [("snow", snowSec ++ [("net", sumVals snowSec)])] else []) ++
  [("soil", soilSec ++ [("net", sumVals soilSec)])]

/-- `d.get(k, 0.0)` on an association list: the first value stored under
`k`, or `0` when `k` is absent. -/
def dictGet (d : List (String × ℝ)) (k : String) : ℝ :=
  match d with
  | [] => 0
  | (k', v) :: rest => if k' = k then v else dictGet rest k

/-- `d[k] = v` on an association list: replace the first entry under `k`,
or append a fresh entry when `k` is absent (Python dict insertion order). -/
def dictSet (d : List (String × ℝ)) (k : String) (v : ℝ) : List (String × ℝ) :=
  match d with
  | [] => [(k, v)]
  | (k', v') :: rest => if k' = k then (k, v) :: rest else (k', v') :: dictSet rest k v

/-- Membership of a key in an association list. -/
def dictHas (d : List (String × ℝ)) (k : String) : Prop := k ∈ d.map Prod.fst

/-- The inner loop `for k, v in comps.items(): tgt[k] = tgt.get(k, 0.0) + v`. -/
def addComps (tgt : List (String × ℝ)) (comps : List (String × ℝ)) : List (String × ℝ) :=
  comps.foldl (fun t e => dictSet t e.1 (dictGet t e.1 + e.2)) tgt

/-- Nested-dict analogues of `dictGet`/`dictSet`/`dictHas` for breakdowns. -/
def bdGet (d : List (String × List (String × ℝ))) (node : String) : List (String × ℝ) :=
  match d with
  | [] => []
  | (n', sec) :: rest => if n' = node then sec else bdGet rest node

/-- Replace-or-append of a node section in a breakdown. -/
def bdSet (d : List (String × List (String × ℝ))) (node : String)
    (sec : List (String × ℝ)) : List (String × List (String × ℝ)) :=
  match d with
  | [] => [(node, sec)]
  | (n', sec') :: rest =>
      if n' = node then (node, sec) :: rest else (n', sec') :: bdSet rest node sec

/-- Presence of a node section in a breakdown. -/
def bdHas (d : List (String × List (String × ℝ))) (node : String) : Prop :=
  node ∈ d.map Prod.fst

/-- The middle loop of `average_flux_dicts`: merge one breakdown `d` into the
accumulator, using `out.setdefault(node, {})` then in-place accumulation. -/
def mergeDict (out : List (String × List (String × ℝ)))
    (d : List (String × List (String × ℝ))) : List (String × List (String × ℝ)) :=
  d.foldl (fun acc e => bdSet acc e.1 (addComps (bdGet acc e.1) e.2)) out

/-- `average_flux_dicts` (source lines 350-364): accumulate every node/term
value over all breakdowns, then divide every accumulated value by the total
number `n` of breakdowns. -/
def average_flux_dicts (dicts : List (List (String × List (String × ℝ)))) :
    List (String × List (String × ℝ)) :=
  let out := dicts.foldl mergeDict []
  let n := dicts.length
  if n ≠ 0 then
    out.map (fun e => (e.1, e.2.map (fun kv => (kv.1, kv.2 / (n : ℝ)))))
  else out

/-- The list of keys of an association list. -/
def dictKeys (d : List (String × ℝ)) : List String := d.map Prod.fst

/-- The total value stored under key `k` in a section (for a genuine dict —
unique keys — this is just the value at `k`, and `0` when `k` is absent). -/
def keySum (l : List (String × ℝ)) (k : String) : ℝ :=
  (l.map (fun kv => if kv.1 = k then kv.2 else 0)).sum

/-- The total contribution of one input breakdown to the accumulator cell
`(node, k)`: the sum, over the breakdown's sections named `node`, of the
values their dicts store under `k` (for genuine dicts — unique keys — this
is just the value at `d[node][k]`, and `0` when absent). -/
def contrib (d : List (String × List (String × ℝ))) (node k : String) : ℝ :=
  (d.map (fun e => if e.1 = node then keySum e.2 k else 0)).sum

/-- Result record of one `scipy.optimize.least_squares` call: the success
flag `res.success`, the residual vector `res.fun` and the solution `res.x`. -/
structure SolveResult where
  success : Bool
  fval : Fin 4 → ℝ
  x : Fin 4 → ℝ

/-- An abstract bounded robust least-squares routine: from an evaluation
budget, an initial guess and a scenario to a `SolveResult`.  The concrete
`scipy` optimiser is an external library routine; the driver only needs it
to be a deterministic function of these inputs. -/
def Solver : Type := ℕ → (Fin 4 → ℝ) → Params → SolveResult

/-- The initial-guess vector of `run_monte_carlo` (source lines 384-392),
reading perturbation draws from the stream; returns the guess and the next
unread stream position.  `season` is the raw (uncased) season argument of
`run_monte_carlo`. -/
def build_guess (season : String) (u : ℕ → ℝ) (p : Params) (i : ℕ) :
    (Fin 4 → ℝ) × ℕ :=
  let has_snow := 0 < p.A_snow
  let g0 := p.T_atm + (if season = "summer" then U u i 1 8 else U u i (-2) 5)
  let g1 := (p.T_atm + p.T_deep) / 2 + U u (i + 1) (-3) 3
  let g2 := if has_snow ∧ p.T_atm < 275 then 273.15 else p.T_atm - U u (i + 2) 1 10
  let i3 := if has_snow ∧ p.T_atm < 275 then i + 2 else i + 3
  let g3 := p.T_deep + U u i3 (-2) 4
  let i4 := i3 + 1
  let g2' := if ¬ has_snow then (g0 + g3) / 2 else g2
  let g2'' := if season = "summer" ∧ has_snow then min g2' (273.15 + U u i4 0 0.1) else g2'
  let i5 := if season = "summer" ∧ has_snow then i4 + 1 else i4
  (![g0, g1, g2'', g3], i5)

/-- Acceptance of one trial (source lines 398-401): the optimiser reports
success, all four residual magnitudes are below `5e-3`, and the solved soil
temperature is not more than 20 K away from the atmospheric temperature. -/
def accepted (r : SolveResult) (p : Params) : Prop :=
  ¬ (¬ (r.success = true ∧ ∀ m : Fin 4, |r.fval m| < 5e-3)) ∧
  ¬ (|r.x 3 - p.T_atm| > 20)

/-- One Monte-Carlo trial: sample a scenario, build the initial guess, run
the solver.  Returns the solver result, the scenario and the next unread
stream position (`none` when `sample_parameters` raises). -/
def runTrial (solve : Solver) (season forest_type : String) (maxiter : ℕ)
    (u : ℕ → ℝ) (i : ℕ) : Option ((SolveResult × Params) × ℕ) :=
  match sample_parameters season forest_type u i with
  | none => none
  | some (p, j) =>
      let g := build_guess season u p j
      some ((solve maxiter g.1 p, p), g.2)

/-- The sequence of `n` trial outcomes, in order (`none` as soon as one
trial raises). -/
def trialList (solve : Solver) (season forest_type : String) (maxiter : ℕ)
    (u : ℕ → ℝ) : ℕ → ℕ → Option (List (SolveResult × Params))
  | 0, _ => some []
  | n + 1, i =>
      match runTrial solve season forest_type maxiter u i with
      | none => none
      | some (t, j) =>
          match trialList solve season forest_type maxiter u n j with
          | none => none
          | some ts => some (t :: ts)

/-- `run_monte_carlo` (source lines 370-405): run `n_runs` trials and append
the solved state and the scenario of every accepted trial to two lists. -/
def run_monte_carlo (solve : Solver) (n_runs : ℕ) (season forest_type : String)
    (maxiter : ℕ) (u : ℕ → ℝ) (i : ℕ) :
    Option (List (Fin 4 → ℝ) × List Params) :=
  match n_runs with
  | 0 => some ([], [])
  | n + 1 =>
      match runTrial solve season forest_type maxiter u i with
      | none => none
      | some ((r, p), j) =>
          match run_monte_carlo solve n season forest_type maxiter u j with
          | none => none
          | some (sols, pars) =>
              if accepted r p then some (r.x :: sols, p :: pars)
              else some (sols, pars)

end EB

/-- **C3.** For non-negative area inputs, `canopy_overlap` returns `(0,0,0)`
when the canopy area or the ground area (snow + soil) is zero; otherwise the
snow- and soil-overlap components sum exactly to `min A_can (A_snow + A_soil)`
(hence the combined overlap is at most that cap), each component is the cap
split proportionally to that surface's share of ground area, and the third
component equals the canopy area minus the cap. -/
theorem canopy_overlap_spec (A_can A_snow A_soil : ℝ)
    (hc : 0 ≤ A_can) (hsn : 0 ≤ A_snow) (hsl : 0 ≤ A_soil) :
    (A_can = 0 ∨ A_snow + A_soil = 0 →
      EB.canopy_overlap A_can A_snow A_soil = (0, 0, 0)) ∧
    (A_can ≠ 0 → A_snow + A_soil ≠ 0 →
      (EB.canopy_overlap A_can A_snow A_soil).1 +
        (EB.canopy_overlap A_can A_snow A_soil).2.1 =
          min A_can (A_snow + A_soil) ∧
      (EB.canopy_overlap A_can A_snow A_soil).1 +
        (EB.canopy_overlap A_can A_snow A_soil).2.1 ≤
          min A_can (A_snow + A_soil) ∧
      (EB.canopy_overlap A_can A_snow A_soil).1 =
        min A_can (A_snow + A_soil) * (A_snow / (A_snow + A_soil)) ∧
      (EB.canopy_overlap A_can A_snow A_soil).2.1 =
        min A_can (A_snow + A_soil) * (A_soil / (A_snow + A_soil)) ∧
      (EB.canopy_overlap A_can A_snow A_soil).2.2 =
        A_can - min A_can (A_snow + A_soil)) := by
  constructor
  · intro h
    simp only [EB.canopy_overlap]
    rw [if_pos h]
  · intro hA hg
    have hcond : ¬ (A_can = 0 ∨ A_snow + A_soil = 0) := by
      push_neg
      exact ⟨hA, hg⟩
    simp only [EB.canopy_overlap]
    rw [if_neg hcond]
    refine ⟨?_, ?_, rfl, rfl, rfl⟩
    · field_simp
      ring
    · have : min A_can (A_snow + A_soil) * (A_snow / (A_snow + A_soil)) +
          min A_can (A_snow + A_soil) * (A_soil / (A_snow + A_soil)) =
          min A_can (A_snow + A_soil) := by
        field_simp
        ring
      simp only [this]
      exact le_refl _

/-- Witness for C3 at the concrete input `(1, 1/2, 1/4)`. -/
theorem canopy_overlap_spec_witness :
    ((1 : ℝ) = 0 ∨ (1 / 2 : ℝ) + (1 / 4 : ℝ) = 0 →
      EB.canopy_overlap 1 (1 / 2) (1 / 4) = (0, 0, 0)) ∧
    ((1 : ℝ) ≠ 0 → (1 / 2 : ℝ) + (1 / 4 : ℝ) ≠ 0 →
      (EB.canopy_overlap 1 (1 / 2) (1 / 4)).1 +
        (EB.canopy_overlap 1 (1 / 2) (1 / 4)).2.1 =
          min 1 ((1 / 2 : ℝ) + (1 / 4 : ℝ)) ∧
      (EB.canopy_overlap 1 (1 / 2) (1 / 4)).1 +
        (EB.canopy_overlap 1 (1 / 2) (1 / 4)).2.1 ≤
          min 1 ((1 / 2 : ℝ) + (1 / 4 : ℝ)) ∧
      (EB.canopy_overlap 1 (1 / 2) (1 / 4)).1 =
        min 1 ((1 / 2 : ℝ) + (1 / 4 : ℝ)) * ((1 / 2) / ((1 / 2 : ℝ) + (1 / 4 : ℝ))) ∧
      (EB.canopy_overlap 1 (1 / 2) (1 / 4)).2.1 =
        min 1 ((1 / 2 : ℝ) + (1 / 4 : ℝ)) * ((1 / 4) / ((1 / 2 : ℝ) + (1 / 4 : ℝ))) ∧
      (EB.canopy_overlap 1 (1 / 2) (1 / 4)).2.2 =
        1 - min 1 ((1 / 2 : ℝ) + (1 / 4 : ℝ))) :=
  canopy_overlap_spec 1 (1 / 2) (1 / 4) (by norm_num) (by norm_num) (by norm_num)

/-- **C9.** The saturation-vapour-pressure function `esat_kPa` is strictly
increasing in temperature on the interval [200 K, 340 K]. -/
theorem esat_kPa_strictMono (T1 T2 : ℝ)
    (h1 : 200 ≤ T1) (hlt : T1 < T2) (h2 : T2 ≤ 340) :
    EB.esat_kPa T1 < EB.esat_kPa T2 := by
  unfold EB.esat_kPa
  have hd1 : (0 : ℝ) < (T1 - 273.15) + 237.3 := by linarith
  have hd2 : (0 : ℝ) < (T2 - 273.15) + 237.3 := by linarith
  have hexp : 17.27 * (T1 - 273.15) / ((T1 - 273.15) + 237.3) <
      17.27 * (T2 - 273.15) / ((T2 - 273.15) + 237.3) := by
    rw [div_lt_div_iff₀ hd1 hd2]
    nlinarith
  have := Real.exp_lt_exp.mpr hexp
  nlinarith [Real.exp_pos (17.27 * (T1 - 273.15) / ((T1 - 273.15) + 237.3))]

/-- Witness for C9 at the concrete pair (250 K, 300 K). -/
theorem esat_kPa_strictMono_witness :
    EB.esat_kPa 250 < EB.esat_kPa 300 :=
  esat_kPa_strictMono 250 300 (by norm_num) (by norm_num) (by norm_num)

/-- **C1.** For every temperature state and scenario, `energy_balance`
returns the raw unnormalised residual `T_node - T_atm` for each node whose
area fraction is zero (canopy when `A_can = 0`, trunk when
`A_trunk_plan = 0`, snow when `A_snow = 0`), and for each node with nonzero
area fraction — and always for soil — the sum of that node's signed flux
terms divided by the fixed normalisation constant 100. -/
theorem energy_balance_normalisation (v : Fin 4 → ℝ) (p : EB.Params) :
    (p.A_can = 0 → EB.energy_balance v p 0 = v 0 - p.T_atm) ∧
    (p.A_can ≠ 0 → EB.energy_balance v p 0 = (EB.node_flux_sums v p).1 / 100) ∧
    (p.A_trunk_plan = 0 → EB.energy_balance v p 1 = v 1 - p.T_atm) ∧
    (p.A_trunk_plan ≠ 0 →
      EB.energy_balance v p 1 = (EB.node_flux_sums v p).2.1 / 100) ∧
    (p.A_snow = 0 → EB.energy_balance v p 2 = v 2 - p.T_atm) ∧
    (p.A_snow ≠ 0 → EB.energy_balance v p 2 = (EB.node_flux_sums v p).2.2.1 / 100) ∧
    EB.energy_balance v p 3 = (EB.node_flux_sums v p).2.2.2 / 100 := by
  unfold EB.energy_balance EB.node_flux_sums EB.NDIM_FLUX
  refine ⟨?_, ?_, ?_, ?_, ?_, ?_, ?_⟩
  · intro h
    simp [h]
  · intro h
    simp [h]
  · intro h
    simp [h]
  · intro h
    simp [h]
  · intro h
    simp [h]
  · intro h
    simp [h]
  · simp

theorem lw_pair_zero_area (ei Ti ej Tj : ℝ) :
    EB.lw_pair ei 0 Ti ej Tj = 0 := by
  simp [EB.lw_pair]

set_option maxHeartbeats 1000000 in
theorem canopy_net_aux (v : Fin 4 → ℝ) (p : EB.Params) (hc : p.A_can ≠ 0) :
    EB.dictGet (EB.bdGet (EB.compute_flux_components v p) "canopy") "net" =
      EB.sumVals ((EB.bdGet (EB.compute_flux_components v p) "canopy").filter
        (fun e => e.1 ≠ "net")) ∧
    EB.dictGet (EB.bdGet (EB.compute_flux_components v p) "canopy") "net" =
      100 * EB.energy_balance v p 0 := by
  constructor
  · simp [EB.compute_flux_components, hc, EB.bdGet, EB.dictGet, EB.sumVals]
  · by_cases hsn : p.A_snow = 0
    · simp [EB.compute_flux_components, EB.energy_balance, EB.NDIM_FLUX, hc, hsn,
        EB.bdGet, EB.dictGet, EB.sumVals, lw_pair_zero_area]
      ring
    · simp [EB.compute_flux_components, EB.energy_balance, EB.NDIM_FLUX, hc, hsn,
        EB.bdGet, EB.dictGet, EB.sumVals, lw_pair_zero_area]
      ring

set_option maxHeartbeats 1000000 in
theorem trunk_net_aux (v : Fin 4 → ℝ) (p : EB.Params) (ht : p.A_trunk_plan ≠ 0) :
    EB.dictGet (EB.bdGet (EB.compute_flux_components v p) "trunk") "net" =
      EB.sumVals ((EB.bdGet (EB.compute_flux_components v p) "trunk").filter
        (fun e => e.1 ≠ "net")) ∧
    EB.dictGet (EB.bdGet (EB.compute_flux_components v p) "trunk") "net" =
      100 * EB.energy_balance v p 1 := by
  constructor
  · by_cases hA : p.A_can = 0 <;>
      simp [EB.compute_flux_components, ht, hA, EB.bdGet, EB.dictGet, EB.sumVals]
  · by_cases hA : p.A_can = 0 <;>
      simp [EB.compute_flux_components, EB.energy_balance, EB.NDIM_FLUX, ht, hA,
        EB.bdGet, EB.dictGet, EB.sumVals, lw_pair_zero_area] <;> ring

set_option maxHeartbeats 1000000 in
theorem snow_net_aux (v : Fin 4 → ℝ) (p : EB.Params) (hs : p.A_snow ≠ 0) :
    EB.dictGet (EB.bdGet (EB.compute_flux_components v p) "snow") "net" =
      EB.sumVals ((EB.bdGet (EB.compute_flux_components v p) "snow").filter
        (fun e => e.1 ≠ "net")) ∧
    EB.dictGet (EB.bdGet (EB.compute_flux_components v p) "snow") "net" =
      100 * EB.energy_balance v p 2 := by
  constructor
  · by_cases hA : p.A_can = 0 <;> by_cases hT : p.A_trunk_plan = 0 <;>
      simp [EB.compute_flux_components, hs, hA, hT, EB.bdGet, EB.dictGet, EB.sumVals]
  · by_cases hA : p.A_can = 0 <;> by_cases hT : p.A_trunk_plan = 0 <;>
      simp [EB.compute_flux_components, EB.energy_balance, EB.NDIM_FLUX, hs, hA, hT,
        EB.bdGet, EB.dictGet, EB.sumVals, lw_pair_zero_area] <;> ring

set_option maxHeartbeats 1000000 in
theorem soil_net_aux (v : Fin 4 → ℝ) (p : EB.Params) :
    EB.dictGet (EB.bdGet (EB.compute_flux_components v p) "soil") "net" =
      EB.sumVals ((EB.bdGet (EB.compute_flux_components v p) "soil").filter
        (fun e => e.1 ≠ "net")) ∧
    EB.dictGet (EB.bdGet (EB.compute_flux_components v p) "soil") "net" =
      100 * EB.energy_balance v p 3 := by
  constructor
  · by_cases hA : p.A_can = 0 <;> by_cases hT : p.A_trunk_plan = 0 <;>
      by_cases hs : p.A_snow = 0 <;>
      simp [EB.compute_flux_components, hs, hA, hT, EB.bdGet, EB.dictGet, EB.sumVals]
  · by_cases hA : p.A_can = 0 <;> by_cases hT : p.A_trunk_plan = 0 <;>
      by_cases hs : p.A_snow = 0 <;>
      simp [EB.compute_flux_components, EB.energy_balance, EB.NDIM_FLUX, hs, hA, hT,
        EB.bdGet, EB.dictGet, EB.sumVals, lw_pair_zero_area] <;> ring

/-- **C2.** In the breakdown returned by `compute_flux_components`, each
emitted node's `"net"` entry equals the sum of that node's other entries
exactly (hence in particular within any positive tolerance such as `1e-9`),
and for every node whose section is present — canopy/trunk/snow when their
area fractions are nonzero, soil always — that `"net"` value equals
`NDIM_FLUX = 100` times the corresponding component of `energy_balance`
at the same state and scenario. -/
theorem compute_flux_components_net (v : Fin 4 → ℝ) (p : EB.Params) :
    (p.A_can ≠ 0 →
      EB.dictGet (EB.bdGet (EB.compute_flux_components v p) "canopy") "net" =
        EB.sumVals ((EB.bdGet (EB.compute_flux_components v p) "canopy").filter
          (fun e => e.1 ≠ "net")) ∧
      EB.dictGet (EB.bdGet (EB.compute_flux_components v p) "canopy") "net" =
        100 * EB.energy_balance v p 0) ∧
    (p.A_trunk_plan ≠ 0 →
      EB.dictGet (EB.bdGet (EB.compute_flux_components v p) "trunk") "net" =
        EB.sumVals ((EB.bdGet (EB.compute_flux_components v p) "trunk").filter
          (fun e => e.1 ≠ "net")) ∧
      EB.dictGet (EB.bdGet (EB.compute_flux_components v p) "trunk") "net" =
        100 * EB.energy_balance v p 1) ∧
    (p.A_snow ≠ 0 →
      EB.dictGet (EB.bdGet (EB.compute_flux_components v p) "snow") "net" =
        EB.sumVals ((EB.bdGet (EB.compute_flux_components v p) "snow").filter
          (fun e => e.1 ≠ "net")) ∧
      EB.dictGet (EB.bdGet (EB.compute_flux_components v p) "snow") "net" =
        100 * EB.energy_balance v p 2) ∧
    (EB.dictGet (EB.bdGet (EB.compute_flux_components v p) "soil") "net" =
      EB.sumVals ((EB.bdGet (EB.compute_flux_components v p) "soil").filter
        (fun e => e.1 ≠ "net")) ∧
    EB.dictGet (EB.bdGet (EB.compute_flux_components v p) "soil") "net" =
      100 * EB.energy_balance v p 3) :=
  ⟨fun hc => canopy_net_aux v p hc, fun ht => trunk_net_aux v p ht,
   fun hs => snow_net_aux v p hs, soil_net_aux v p⟩


theorem U_bounds (u : ℕ → ℝ) (i : ℕ) (a b : ℝ) (h0 : 0 ≤ u i) (h1 : u i ≤ 1)
    (hab : a ≤ b) : a ≤ EB.U u i a b ∧ EB.U u i a b ≤ b := by
  unfold EB.U
  constructor <;> nlinarith

theorem sample_parameters_inv (season forest_type : String) (u : ℕ → ℝ) (i : ℕ)
    (p : EB.Params) (j : ℕ)
    (hs : EB.sample_parameters season forest_type u i = some (p, j)) :
    ∃ (T Q Td ks ds RHv th uw dT ac A L kc : ℝ) (j0 : ℕ),
      (p, j) = EB.sampleRest (EB.strLower season) (EB.strLower forest_type) u
        T Q Td ks ds RHv th uw dT ac A L kc j0 ∧
      ((∀ m : ℕ, 0 ≤ u m ∧ u m ≤ 1) → EB.strLower season = "summer" → 278 < T) ∧
      (EB.strLower season ≠ "summer" →
        T = EB.U u i 258 273 ∧ Q = EB.U u (i + 1) 50 200) ∧
      th = EB.U u (i + 6) 0.40 1 ∧
      (EB.strLower forest_type = "none" → A = 0) ∧
      ((∀ m : ℕ, 0 ≤ u m ∧ u m ≤ 1) → EB.strLower forest_type ≠ "none" → 0 < A) := by
  simp only [EB.sample_parameters] at hs
  by_cases h1 : EB.strLower forest_type = "coniferous"
  · rw [if_pos h1] at hs
    refine ⟨_, _, _, _, _, _, _, _, _, _, _, _, _, _, (Option.some.inj hs).symm,
      ?_, ?_, rfl, ?_, ?_⟩
    · intro hu hss
      rw [if_pos hss]
      nlinarith [(U_bounds u i 293 303 (hu i).1 (hu i).2 (by norm_num)).1]
    · intro hns
      rw [if_neg hns, if_neg hns]
      exact ⟨rfl, rfl⟩
    · intro h
      exact absurd (h1.symm.trans h) (by decide)
    · intro hu _
      by_cases hss : EB.strLower season = "summer"
      · rw [if_pos hss]
        nlinarith [(U_bounds u (i + 10) 0.5 0.8 (hu (i + 10)).1 (hu (i + 10)).2 (by norm_num)).1]
      · rw [if_neg hss]
        nlinarith [(U_bounds u (i + 10) 0.4 0.7 (hu (i + 10)).1 (hu (i + 10)).2 (by norm_num)).1]
  · rw [if_neg h1] at hs
    by_cases h2 : EB.strLower forest_type = "deciduous"
    · rw [if_pos h2] at hs
      refine ⟨_, _, _, _, _, _, _, _, _, _, _, _, _, _, (Option.some.inj hs).symm,
        ?_, ?_, rfl, ?_, ?_⟩
      · intro hu hss
        rw [if_pos hss]
        nlinarith [(U_bounds u i 293 303 (hu i).1 (hu i).2 (by norm_num)).1]
      · intro hns
        rw [if_neg hns, if_neg hns]
        exact ⟨rfl, rfl⟩
      · intro h
        exact absurd (h2.symm.trans h) (by decide)
      · intro hu _
        by_cases hss : EB.strLower season = "summer"
        · rw [if_pos hss]
          nlinarith [(U_bounds u (i + 10) 0.6 0.9 (hu (i + 10)).1 (hu (i + 10)).2 (by norm_num)).1]
        · rw [if_neg hss]
          nlinarith [(U_bounds u (i + 10) 0.1 0.2 (hu (i + 10)).1 (hu (i + 10)).2 (by norm_num)).1]
    · rw [if_neg h2] at hs
      by_cases h3 : EB.strLower forest_type = "none"
      · rw [if_pos h3] at hs
        refine ⟨_, _, _, _, _, _, _, _, _, _, _, _, _, _, (Option.some.inj hs).symm,
          ?_, ?_, rfl, fun _ => rfl, ?_⟩
        · intro hu hss
          rw [if_pos hss]
          nlinarith [(U_bounds u i 293 303 (hu i).1 (hu i).2 (by norm_num)).1]
        · intro hns
          rw [if_neg hns, if_neg hns]
          exact ⟨rfl, rfl⟩
        · intro _ hn
          exact absurd h3 hn
      · rw [if_neg h3] at hs
        exact absurd hs (by simp)

set_option maxHeartbeats 1000000 in
theorem sampleRest_areas (ssn ft : String) (u : ℕ → ℝ)
    (T_atm Q_solar T_deep k_soil d_soil RH theta_rel uw dT_target
     alpha_can A_can LAI k_ct : ℝ) (j : ℕ)
    (hu : ∀ m : ℕ, 0 ≤ u m ∧ u m ≤ 1) (hsummer : ssn = "summer" → 278 < T_atm) :
    ((EB.sampleRest ssn ft u T_atm Q_solar T_deep k_soil d_soil RH theta_rel uw
        dT_target alpha_can A_can LAI k_ct j).1.A_snow = 0 ∨
      1e-3 ≤ (EB.sampleRest ssn ft u T_atm Q_solar T_deep k_soil d_soil RH theta_rel uw
        dT_target alpha_can A_can LAI k_ct j).1.A_snow) ∧
    (EB.sampleRest ssn ft u T_atm Q_solar T_deep k_soil d_soil RH theta_rel uw
        dT_target alpha_can A_can LAI k_ct j).1.A_soil =
      1 - (EB.sampleRest ssn ft u T_atm Q_solar T_deep k_soil d_soil RH theta_rel uw
        dT_target alpha_can A_can LAI k_ct j).1.A_trunk_plan -
      (EB.sampleRest ssn ft u T_atm Q_solar T_deep k_soil d_soil RH theta_rel uw
        dT_target alpha_can A_can LAI k_ct j).1.A_snow ∧
    (EB.sampleRest ssn ft u T_atm Q_solar T_deep k_soil d_soil RH theta_rel uw
        dT_target alpha_can A_can LAI k_ct j).1.A_trunk_plan +
      (EB.sampleRest ssn ft u T_atm Q_solar T_deep k_soil d_soil RH theta_rel uw
        dT_target alpha_can A_can LAI k_ct j).1.A_snow +
      (EB.sampleRest ssn ft u T_atm Q_solar T_deep k_soil d_soil RH theta_rel uw
        dT_target alpha_can A_can LAI k_ct j).1.A_soil = 1 := by
  simp only [EB.sampleRest]
  by_cases hss : ssn = "summer"
  · have hT := hsummer hss
    simp only [hss, if_true, eq_self_iff_true, hT, if_pos, mul_zero]
    simp [show ((0:ℝ) < 1e-3) from by norm_num]
  · simp only [hss, if_false, eq_self_iff_true]
    by_cases hft : ft = "none"
    · simp only [hft, ne_eq, not_true_eq_false, if_false, sub_zero, one_mul]
      have h6 := U_bounds u j 0.6 1 (hu j).1 (hu j).2 (by norm_num)
      rw [if_neg (by nlinarith [h6.1])]
      refine ⟨Or.inr (by nlinarith [h6.1]), by ring, by ring⟩
    · simp only [hft, ne_eq, not_false_eq_true, if_true]
      have hA := U_bounds u j 0.01 0.05 (hu j).1 (hu j).2 (by norm_num)
      have h6 := U_bounds u (j + 2) 0.6 1 (hu (j + 2)).1 (hu (j + 2)).2 (by norm_num)
      rw [if_neg (by nlinarith [hA.1, hA.2, h6.1, h6.2])]
      refine ⟨Or.inr (by nlinarith [hA.1, hA.2, h6.1, h6.2]), by ring, by ring⟩

theorem sample_summer_none_eval :
    EB.sample_parameters "summer" "none" (fun _ => (1:ℝ)/2) 0 =
    some (EB.sampleRest "summer" "none" (fun _ => (1:ℝ)/2)
      (EB.U (fun _ => (1:ℝ)/2) 0 293 303) (EB.U (fun _ => (1:ℝ)/2) 1 400 800)
      (EB.U (fun _ => (1:ℝ)/2) 0 293 303 + EB.U (fun _ => (1:ℝ)/2) 2 (-4) (-2))
      (EB.U (fun _ => (1:ℝ)/2) 3 0.5 1.5) (EB.U (fun _ => (1:ℝ)/2) 4 1.5 3)
      (EB.U (fun _ => (1:ℝ)/2) 5 0.60 1) (EB.U (fun _ => (1:ℝ)/2) 6 0.40 1)
      (EB.U (fun _ => (1:ℝ)/2) 7 0.5 2) (EB.U (fun _ => (1:ℝ)/2) 8 1 7)
      0 0 0 0 9) := by
  have hsm : EB.strLower "summer" = "summer" := by decide
  have hnn : EB.strLower "none" = "none" := by decide
  simp only [EB.sample_parameters, hsm, hnn]
  norm_num
  rw [if_neg (by decide), if_neg (by decide)]

/-- **C6.** Every scenario returned by `sample_parameters` (with unit draws
from the stream) has a snow area fraction that is either exactly 0 or at
least `1e-3`, and a soil area fraction equal to the geometric remainder
`1 - A_trunk_plan - A_snow` with respect to the final (post-zeroing) snow
fraction, so `A_trunk_plan + A_snow + A_soil = 1`. -/
theorem sample_parameters_area_invariant (season forest_type : String)
    (u : ℕ → ℝ) (i : ℕ) (p : EB.Params) (j : ℕ)
    (hu : ∀ m : ℕ, 0 ≤ u m ∧ u m ≤ 1)
    (hs : EB.sample_parameters season forest_type u i = some (p, j)) :
    (p.A_snow = 0 ∨ 1e-3 ≤ p.A_snow) ∧
    p.A_soil = 1 - p.A_trunk_plan - p.A_snow ∧
    p.A_trunk_plan + p.A_snow + p.A_soil = 1 := by
  obtain ⟨T, Q, Td, ks, ds, RHv, th, uw, dT, ac, A, L, kc, j0, heq, hsum, hwin, hth, hf0, hfp⟩ :=
    sample_parameters_inv season forest_type u i p j hs
  have hp : p = (EB.sampleRest (EB.strLower season) (EB.strLower forest_type) u
      T Q Td ks ds RHv th uw dT ac A L kc j0).1 := congrArg Prod.fst heq
  rw [hp]
  exact sampleRest_areas _ _ u T Q Td ks ds RHv th uw dT ac A L kc j0 hu (hsum hu)

/-- Witness for C6: the scenario sampled in summer with `forest_type = "none"`
from the constant unit stream 1/2. -/
theorem sample_parameters_area_invariant_witness :
    ((EB.sampleRest "summer" "none" (fun _ => (1:ℝ)/2)
      (EB.U (fun _ => (1:ℝ)/2) 0 293 303) (EB.U (fun _ => (1:ℝ)/2) 1 400 800)
      (EB.U (fun _ => (1:ℝ)/2) 0 293 303 + EB.U (fun _ => (1:ℝ)/2) 2 (-4) (-2))
      (EB.U (fun _ => (1:ℝ)/2) 3 0.5 1.5) (EB.U (fun _ => (1:ℝ)/2) 4 1.5 3)
      (EB.U (fun _ => (1:ℝ)/2) 5 0.60 1) (EB.U (fun _ => (1:ℝ)/2) 6 0.40 1)
      (EB.U (fun _ => (1:ℝ)/2) 7 0.5 2) (EB.U (fun _ => (1:ℝ)/2) 8 1 7)
      0 0 0 0 9).1.A_snow = 0 ∨
      1e-3 ≤ (EB.sampleRest "summer" "none" (fun _ => (1:ℝ)/2)
      (EB.U (fun _ => (1:ℝ)/2) 0 293 303) (EB.U (fun _ => (1:ℝ)/2) 1 400 800)
      (EB.U (fun _ => (1:ℝ)/2) 0 293 303 + EB.U (fun _ => (1:ℝ)/2) 2 (-4) (-2))
      (EB.U (fun _ => (1:ℝ)/2) 3 0.5 1.5) (EB.U (fun _ => (1:ℝ)/2) 4 1.5 3)
      (EB.U (fun _ => (1:ℝ)/2) 5 0.60 1) (EB.U (fun _ => (1:ℝ)/2) 6 0.40 1)
      (EB.U (fun _ => (1:ℝ)/2) 7 0.5 2) (EB.U (fun _ => (1:ℝ)/2) 8 1 7)
      0 0 0 0 9).1.A_snow) ∧
    (EB.sampleRest "summer" "none" (fun _ => (1:ℝ)/2)
      (EB.U (fun _ => (1:ℝ)/2) 0 293 303) (EB.U (fun _ => (1:ℝ)/2) 1 400 800)
      (EB.U (fun _ => (1:ℝ)/2) 0 293 303 + EB.U (fun _ => (1:ℝ)/2) 2 (-4) (-2))
      (EB.U (fun _ => (1:ℝ)/2) 3 0.5 1.5) (EB.U (fun _ => (1:ℝ)/2) 4 1.5 3)
      (EB.U (fun _ => (1:ℝ)/2) 5 0.60 1) (EB.U (fun _ => (1:ℝ)/2) 6 0.40 1)
      (EB.U (fun _ => (1:ℝ)/2) 7 0.5 2) (EB.U (fun _ => (1:ℝ)/2) 8 1 7)
      0 0 0 0 9).1.A_soil =
      1 - (EB.sampleRest "summer" "none" (fun _ => (1:ℝ)/2)
      (EB.U (fun _ => (1:ℝ)/2) 0 293 303) (EB.U (fun _ => (1:ℝ)/2) 1 400 800)
      (EB.U (fun _ => (1:ℝ)/2) 0 293 303 + EB.U (fun _ => (1:ℝ)/2) 2 (-4) (-2))
      (EB.U (fun _ => (1:ℝ)/2) 3 0.5 1.5) (EB.U (fun _ => (1:ℝ)/2) 4 1.5 3)
      (EB.U (fun _ => (1:ℝ)/2) 5 0.60 1) (EB.U (fun _ => (1:ℝ)/2) 6 0.40 1)
      (EB.U (fun _ => (1:ℝ)/2) 7 0.5 2) (EB.U (fun _ => (1:ℝ)/2) 8 1 7)
      0 0 0 0 9).1.A_trunk_plan -
      (EB.sampleRest "summer" "none" (fun _ => (1:ℝ)/2)
      (EB.U (fun _ => (1:ℝ)/2) 0 293 303) (EB.U (fun _ => (1:ℝ)/2) 1 400 800)
      (EB.U (fun _ => (1:ℝ)/2) 0 293 303 + EB.U (fun _ => (1:ℝ)/2) 2 (-4) (-2))
      (EB.U (fun _ => (1:ℝ)/2) 3 0.5 1.5) (EB.U (fun _ => (1:ℝ)/2) 4 1.5 3)
      (EB.U (fun _ => (1:ℝ)/2) 5 0.60 1) (EB.U (fun _ => (1:ℝ)/2) 6 0.40 1)
      (EB.U (fun _ => (1:ℝ)/2) 7 0.5 2) (EB.U (fun _ => (1:ℝ)/2) 8 1 7)
      0 0 0 0 9).1.A_snow ∧
    (EB.sampleRest "summer" "none" (fun _ => (1:ℝ)/2)
      (EB.U (fun _ => (1:ℝ)/2) 0 293 303) (EB.U (fun _ => (1:ℝ)/2) 1 400 800)
      (EB.U (fun _ => (1:ℝ)/2) 0 293 303 + EB.U (fun _ => (1:ℝ)/2) 2 (-4) (-2))
      (EB.U (fun _ => (1:ℝ)/2) 3 0.5 1.5) (EB.U (fun _ => (1:ℝ)/2) 4 1.5 3)
      (EB.U (fun _ => (1:ℝ)/2) 5 0.60 1) (EB.U (fun _ => (1:ℝ)/2) 6 0.40 1)
      (EB.U (fun _ => (1:ℝ)/2) 7 0.5 2) (EB.U (fun _ => (1:ℝ)/2) 8 1 7)
      0 0 0 0 9).1.A_trunk_plan +
      (EB.sampleRest "summer" "none" (fun _ => (1:ℝ)/2)
      (EB.U (fun _ => (1:ℝ)/2) 0 293 303) (EB.U (fun _ => (1:ℝ)/2) 1 400 800)
      (EB.U (fun _ => (1:ℝ)/2) 0 293 303 + EB.U (fun _ => (1:ℝ)/2) 2 (-4) (-2))
      (EB.U (fun _ => (1:ℝ)/2) 3 0.5 1.5) (EB.U (fun _ => (1:ℝ)/2) 4 1.5 3)
      (EB.U (fun _ => (1:ℝ)/2) 5 0.60 1) (EB.U (fun _ => (1:ℝ)/2) 6 0.40 1)
      (EB.U (fun _ => (1:ℝ)/2) 7 0.5 2) (EB.U (fun _ => (1:ℝ)/2) 8 1 7)
      0 0 0 0 9).1.A_snow +
      (EB.sampleRest "summer" "none" (fun _ => (1:ℝ)/2)
      (EB.U (fun _ => (1:ℝ)/2) 0 293 303) (EB.U (fun _ => (1:ℝ)/2) 1 400 800)
      (EB.U (fun _ => (1:ℝ)/2) 0 293 303 + EB.U (fun _ => (1:ℝ)/2) 2 (-4) (-2))
      (EB.U (fun _ => (1:ℝ)/2) 3 0.5 1.5) (EB.U (fun _ => (1:ℝ)/2) 4 1.5 3)
      (EB.U (fun _ => (1:ℝ)/2) 5 0.60 1) (EB.U (fun _ => (1:ℝ)/2) 6 0.40 1)
      (EB.U (fun _ => (1:ℝ)/2) 7 0.5 2) (EB.U (fun _ => (1:ℝ)/2) 8 1 7)
      0 0 0 0 9).1.A_soil = 1 :=
  sample_parameters_area_invariant "summer" "none" (fun _ => (1:ℝ)/2) 0
    (EB.sampleRest "summer" "none" (fun _ => (1:ℝ)/2)
      (EB.U (fun _ => (1:ℝ)/2) 0 293 303) (EB.U (fun _ => (1:ℝ)/2) 1 400 800)
      (EB.U (fun _ => (1:ℝ)/2) 0 293 303 + EB.U (fun _ => (1:ℝ)/2) 2 (-4) (-2))
      (EB.U (fun _ => (1:ℝ)/2) 3 0.5 1.5) (EB.U (fun _ => (1:ℝ)/2) 4 1.5 3)
      (EB.U (fun _ => (1:ℝ)/2) 5 0.60 1) (EB.U (fun _ => (1:ℝ)/2) 6 0.40 1)
      (EB.U (fun _ => (1:ℝ)/2) 7 0.5 2) (EB.U (fun _ => (1:ℝ)/2) 8 1 7)
      0 0 0 0 9).1
    (EB.sampleRest "summer" "none" (fun _ => (1:ℝ)/2)
      (EB.U (fun _ => (1:ℝ)/2) 0 293 303) (EB.U (fun _ => (1:ℝ)/2) 1 400 800)
      (EB.U (fun _ => (1:ℝ)/2) 0 293 303 + EB.U (fun _ => (1:ℝ)/2) 2 (-4) (-2))
      (EB.U (fun _ => (1:ℝ)/2) 3 0.5 1.5) (EB.U (fun _ => (1:ℝ)/2) 4 1.5 3)
      (EB.U (fun _ => (1:ℝ)/2) 5 0.60 1) (EB.U (fun _ => (1:ℝ)/2) 6 0.40 1)
      (EB.U (fun _ => (1:ℝ)/2) 7 0.5 2) (EB.U (fun _ => (1:ℝ)/2) 8 1 7)
      0 0 0 0 9).2
    (fun _ => ⟨by norm_num, by norm_num⟩) sample_summer_none_eval


set_option maxHeartbeats 1000000 in
theorem sampleRest_h (ssn ft : String) (u : ℕ → ℝ)
    (T_atm Q_solar T_deep k_soil d_soil RH theta_rel uw dT_target
     alpha_can A_can LAI k_ct : ℝ) (j : ℕ)
    (hu : ∀ m : ℕ, 0 ≤ u m ∧ u m ≤ 1) :
    (0 < A_can → (EB.sampleRest ssn ft u T_atm Q_solar T_deep k_soil d_soil RH theta_rel uw
        dT_target alpha_can A_can LAI k_ct j).1.h_can ≤ 25 + 5 * (EB.sampleRest ssn ft u T_atm Q_solar T_deep k_soil d_soil RH theta_rel uw
        dT_target alpha_can A_can LAI k_ct j).1.theta_rel) ∧
    (A_can = 0 → (EB.sampleRest ssn ft u T_atm Q_solar T_deep k_soil d_soil RH theta_rel uw
        dT_target alpha_can A_can LAI k_ct j).1.h_can = 1e6) ∧
    (EB.sampleRest ssn ft u T_atm Q_solar T_deep k_soil d_soil RH theta_rel uw
        dT_target alpha_can A_can LAI k_ct j).1.h_soil ≤ 40 ∧
    (EB.sampleRest ssn ft u T_atm Q_solar T_deep k_soil d_soil RH theta_rel uw
        dT_target alpha_can A_can LAI k_ct j).1.h_snow = 0.5 * (EB.sampleRest ssn ft u T_atm Q_solar T_deep k_soil d_soil RH theta_rel uw
        dT_target alpha_can A_can LAI k_ct j).1.h_soil ∧
    (EB.sampleRest ssn ft u T_atm Q_solar T_deep k_soil d_soil RH theta_rel uw
        dT_target alpha_can A_can LAI k_ct j).1.h_trunk = (if (EB.sampleRest ssn ft u T_atm Q_solar T_deep k_soil d_soil RH theta_rel uw
        dT_target alpha_can A_can LAI k_ct j).1.A_trunk_vert ≠ 0
      then (5 + 4 * (EB.sampleRest ssn ft u T_atm Q_solar T_deep k_soil d_soil RH theta_rel uw
        dT_target alpha_can A_can LAI k_ct j).1.u) * EB.stability_factor (EB.sampleRest ssn ft u T_atm Q_solar T_deep k_soil d_soil RH theta_rel uw
        dT_target alpha_can A_can LAI k_ct j).1.season (EB.sampleRest ssn ft u T_atm Q_solar T_deep k_soil d_soil RH theta_rel uw
        dT_target alpha_can A_can LAI k_ct j).1.u
      else 0) := by
  have hH : ∀ m : ℕ, 0 < EB.U u m 10 20 := by
    intro m
    have := (hu m).1
    have := (hu m).2
    unfold EB.U
    nlinarith
  refine ⟨?_, ?_, ?_, rfl, rfl⟩
  · intro hA
    simp only [EB.sampleRest]
    rw [if_pos hA, if_pos ⟨ne_of_gt hA, hH _⟩]
    exact min_le_right _ _
  · intro h0
    simp only [EB.sampleRest]
    rw [if_neg (fun hc => hc.1 h0)]
  · simp only [EB.sampleRest]
    exact min_le_right _ _


/-- **C7 (amended).** For every scenario returned by `sample_parameters`:
`h_soil ≤ 40`, `h_snow = 0.5 * h_soil`, and `h_trunk` equals `(5 + 4u)`
times the stability multiplier when the trunk vertical area is nonzero and
0 otherwise; the canopy cap `h_can ≤ 25 + 5 * theta_rel` holds whenever the
forest type is not `"none"` (nonzero canopy area), while for
`forest_type = "none"` the code instead stores the sentinel `h_can = 1e6`
("effectively off"), which exceeds the cap. -/
theorem sample_parameters_h_caps (season forest_type : String) (u : ℕ → ℝ)
    (i : ℕ) (p : EB.Params) (j : ℕ)
    (hu : ∀ m : ℕ, 0 ≤ u m ∧ u m ≤ 1)
    (hs : EB.sample_parameters season forest_type u i = some (p, j)) :
    (EB.strLower forest_type ≠ "none" → p.h_can ≤ 25 + 5 * p.theta_rel) ∧
    (EB.strLower forest_type = "none" → p.h_can = 1e6) ∧
    p.h_soil ≤ 40 ∧
    p.h_snow = 0.5 * p.h_soil ∧
    p.h_trunk = (if p.A_trunk_vert ≠ 0
      then (5 + 4 * p.u) * EB.stability_factor p.season p.u else 0) := by
  obtain ⟨T, Q, Td, ks, ds, RHv, th, uw, dT, ac, A, L, kc, j0, heq, hsum, hwin, hth, hf0, hfp⟩ :=
    sample_parameters_inv season forest_type u i p j hs
  have hp : p = (EB.sampleRest (EB.strLower season) (EB.strLower forest_type) u
      T Q Td ks ds RHv th uw dT ac A L kc j0).1 := congrArg Prod.fst heq
  have hh := sampleRest_h (EB.strLower season) (EB.strLower forest_type) u
    T Q Td ks ds RHv th uw dT ac A L kc j0 hu
  rw [hp]
  exact ⟨fun hft => hh.1 (hfp hu hft), fun hft => hh.2.1 (hf0 hft),
    hh.2.2.1, hh.2.2.2.1, hh.2.2.2.2⟩

/-- Witness for C7 at the summer/"none" scenario from the constant unit
stream 1/2. -/
theorem sample_parameters_h_caps_witness :
    (EB.strLower "none" ≠ "none" →
      (EB.sampleRest "summer" "none" (fun _ => (1:ℝ)/2)
      (EB.U (fun _ => (1:ℝ)/2) 0 293 303) (EB.U (fun _ => (1:ℝ)/2) 1 400 800)
      (EB.U (fun _ => (1:ℝ)/2) 0 293 303 + EB.U (fun _ => (1:ℝ)/2) 2 (-4) (-2))
      (EB.U (fun _ => (1:ℝ)/2) 3 0.5 1.5) (EB.U (fun _ => (1:ℝ)/2) 4 1.5 3)
      (EB.U (fun _ => (1:ℝ)/2) 5 0.60 1) (EB.U (fun _ => (1:ℝ)/2) 6 0.40 1)
      (EB.U (fun _ => (1:ℝ)/2) 7 0.5 2) (EB.U (fun _ => (1:ℝ)/2) 8 1 7)
      0 0 0 0 9).1.h_can ≤ 25 + 5 * (EB.sampleRest "summer" "none" (fun _ => (1:ℝ)/2)
      (EB.U (fun _ => (1:ℝ)/2) 0 293 303) (EB.U (fun _ => (1:ℝ)/2) 1 400 800)
      (EB.U (fun _ => (1:ℝ)/2) 0 293 303 + EB.U (fun _ => (1:ℝ)/2) 2 (-4) (-2))
      (EB.U (fun _ => (1:ℝ)/2) 3 0.5 1.5) (EB.U (fun _ => (1:ℝ)/2) 4 1.5 3)
      (EB.U (fun _ => (1:ℝ)/2) 5 0.60 1) (EB.U (fun _ => (1:ℝ)/2) 6 0.40 1)
      (EB.U (fun _ => (1:ℝ)/2) 7 0.5 2) (EB.U (fun _ => (1:ℝ)/2) 8 1 7)
      0 0 0 0 9).1.theta_rel) ∧
    (EB.strLower "none" = "none" →
      (EB.sampleRest "summer" "none" (fun _ => (1:ℝ)/2)
      (EB.U (fun _ => (1:ℝ)/2) 0 293 303) (EB.U (fun _ => (1:ℝ)/2) 1 400 800)
      (EB.U (fun _ => (1:ℝ)/2) 0 293 303 + EB.U (fun _ => (1:ℝ)/2) 2 (-4) (-2))
      (EB.U (fun _ => (1:ℝ)/2) 3 0.5 1.5) (EB.U (fun _ => (1:ℝ)/2) 4 1.5 3)
      (EB.U (fun _ => (1:ℝ)/2) 5 0.60 1) (EB.U (fun _ => (1:ℝ)/2) 6 0.40 1)
      (EB.U (fun _ => (1:ℝ)/2) 7 0.5 2) (EB.U (fun _ => (1:ℝ)/2) 8 1 7)
      0 0 0 0 9).1.h_can = 1e6) ∧
    (EB.sampleRest "summer" "none" (fun _ => (1:ℝ)/2)
      (EB.U (fun _ => (1:ℝ)/2) 0 293 303) (EB.U (fun _ => (1:ℝ)/2) 1 400 800)
      (EB.U (fun _ => (1:ℝ)/2) 0 293 303 + EB.U (fun _ => (1:ℝ)/2) 2 (-4) (-2))
      (EB.U (fun _ => (1:ℝ)/2) 3 0.5 1.5) (EB.U (fun _ => (1:ℝ)/2) 4 1.5 3)
      (EB.U (fun _ => (1:ℝ)/2) 5 0.60 1) (EB.U (fun _ => (1:ℝ)/2) 6 0.40 1)
      (EB.U (fun _ => (1:ℝ)/2) 7 0.5 2) (EB.U (fun _ => (1:ℝ)/2) 8 1 7)
      0 0 0 0 9).1.h_soil ≤ 40 ∧
    (EB.sampleRest "summer" "none" (fun _ => (1:ℝ)/2)
      (EB.U (fun _ => (1:ℝ)/2) 0 293 303) (EB.U (fun _ => (1:ℝ)/2) 1 400 800)
      (EB.U (fun _ => (1:ℝ)/2) 0 293 303 + EB.U (fun _ => (1:ℝ)/2) 2 (-4) (-2))
      (EB.U (fun _ => (1:ℝ)/2) 3 0.5 1.5) (EB.U (fun _ => (1:ℝ)/2) 4 1.5 3)
      (EB.U (fun _ => (1:ℝ)/2) 5 0.60 1) (EB.U (fun _ => (1:ℝ)/2) 6 0.40 1)
      (EB.U (fun _ => (1:ℝ)/2) 7 0.5 2) (EB.U (fun _ => (1:ℝ)/2) 8 1 7)
      0 0 0 0 9).1.h_snow = 0.5 * (EB.sampleRest "summer" "none" (fun _ => (1:ℝ)/2)
      (EB.U (fun _ => (1:ℝ)/2) 0 293 303) (EB.U (fun _ => (1:ℝ)/2) 1 400 800)
      (EB.U (fun _ => (1:ℝ)/2) 0 293 303 + EB.U (fun _ => (1:ℝ)/2) 2 (-4) (-2))
      (EB.U (fun _ => (1:ℝ)/2) 3 0.5 1.5) (EB.U (fun _ => (1:ℝ)/2) 4 1.5 3)
      (EB.U (fun _ => (1:ℝ)/2) 5 0.60 1) (EB.U (fun _ => (1:ℝ)/2) 6 0.40 1)
      (EB.U (fun _ => (1:ℝ)/2) 7 0.5 2) (EB.U (fun _ => (1:ℝ)/2) 8 1 7)
      0 0 0 0 9).1.h_soil ∧
    (EB.sampleRest "summer" "none" (fun _ => (1:ℝ)/2)
      (EB.U (fun _ => (1:ℝ)/2) 0 293 303) (EB.U (fun _ => (1:ℝ)/2) 1 400 800)
      (EB.U (fun _ => (1:ℝ)/2) 0 293 303 + EB.U (fun _ => (1:ℝ)/2) 2 (-4) (-2))
      (EB.U (fun _ => (1:ℝ)/2) 3 0.5 1.5) (EB.U (fun _ => (1:ℝ)/2) 4 1.5 3)
      (EB.U (fun _ => (1:ℝ)/2) 5 0.60 1) (EB.U (fun _ => (1:ℝ)/2) 6 0.40 1)
      (EB.U (fun _ => (1:ℝ)/2) 7 0.5 2) (EB.U (fun _ => (1:ℝ)/2) 8 1 7)
      0 0 0 0 9).1.h_trunk = (if (EB.sampleRest "summer" "none" (fun _ => (1:ℝ)/2)
      (EB.U (fun _ => (1:ℝ)/2) 0 293 303) (EB.U (fun _ => (1:ℝ)/2) 1 400 800)
      (EB.U (fun _ => (1:ℝ)/2) 0 293 303 + EB.U (fun _ => (1:ℝ)/2) 2 (-4) (-2))
      (EB.U (fun _ => (1:ℝ)/2) 3 0.5 1.5) (EB.U (fun _ => (1:ℝ)/2) 4 1.5 3)
      (EB.U (fun _ => (1:ℝ)/2) 5 0.60 1) (EB.U (fun _ => (1:ℝ)/2) 6 0.40 1)
      (EB.U (fun _ => (1:ℝ)/2) 7 0.5 2) (EB.U (fun _ => (1:ℝ)/2) 8 1 7)
      0 0 0 0 9).1.A_trunk_vert ≠ 0
      then (5 + 4 * (EB.sampleRest "summer" "none" (fun _ => (1:ℝ)/2)
      (EB.U (fun _ => (1:ℝ)/2) 0 293 303) (EB.U (fun _ => (1:ℝ)/2) 1 400 800)
      (EB.U (fun _ => (1:ℝ)/2) 0 293 303 + EB.U (fun _ => (1:ℝ)/2) 2 (-4) (-2))
      (EB.U (fun _ => (1:ℝ)/2) 3 0.5 1.5) (EB.U (fun _ => (1:ℝ)/2) 4 1.5 3)
      (EB.U (fun _ => (1:ℝ)/2) 5 0.60 1) (EB.U (fun _ => (1:ℝ)/2) 6 0.40 1)
      (EB.U (fun _ => (1:ℝ)/2) 7 0.5 2) (EB.U (fun _ => (1:ℝ)/2) 8 1 7)
      0 0 0 0 9).1.u) *
        EB.stability_factor (EB.sampleRest "summer" "none" (fun _ => (1:ℝ)/2)
      (EB.U (fun _ => (1:ℝ)/2) 0 293 303) (EB.U (fun _ => (1:ℝ)/2) 1 400 800)
      (EB.U (fun _ => (1:ℝ)/2) 0 293 303 + EB.U (fun _ => (1:ℝ)/2) 2 (-4) (-2))
      (EB.U (fun _ => (1:ℝ)/2) 3 0.5 1.5) (EB.U (fun _ => (1:ℝ)/2) 4 1.5 3)
      (EB.U (fun _ => (1:ℝ)/2) 5 0.60 1) (EB.U (fun _ => (1:ℝ)/2) 6 0.40 1)
      (EB.U (fun _ => (1:ℝ)/2) 7 0.5 2) (EB.U (fun _ => (1:ℝ)/2) 8 1 7)
      0 0 0 0 9).1.season (EB.sampleRest "summer" "none" (fun _ => (1:ℝ)/2)
      (EB.U (fun _ => (1:ℝ)/2) 0 293 303) (EB.U (fun _ => (1:ℝ)/2) 1 400 800)
      (EB.U (fun _ => (1:ℝ)/2) 0 293 303 + EB.U (fun _ => (1:ℝ)/2) 2 (-4) (-2))
      (EB.U (fun _ => (1:ℝ)/2) 3 0.5 1.5) (EB.U (fun _ => (1:ℝ)/2) 4 1.5 3)
      (EB.U (fun _ => (1:ℝ)/2) 5 0.60 1) (EB.U (fun _ => (1:ℝ)/2) 6 0.40 1)
      (EB.U (fun _ => (1:ℝ)/2) 7 0.5 2) (EB.U (fun _ => (1:ℝ)/2) 8 1 7)
      0 0 0 0 9).1.u
      else 0) :=
  sample_parameters_h_caps "summer" "none" (fun _ => (1:ℝ)/2) 0
    (EB.sampleRest "summer" "none" (fun _ => (1:ℝ)/2)
      (EB.U (fun _ => (1:ℝ)/2) 0 293 303) (EB.U (fun _ => (1:ℝ)/2) 1 400 800)
      (EB.U (fun _ => (1:ℝ)/2) 0 293 303 + EB.U (fun _ => (1:ℝ)/2) 2 (-4) (-2))
      (EB.U (fun _ => (1:ℝ)/2) 3 0.5 1.5) (EB.U (fun _ => (1:ℝ)/2) 4 1.5 3)
      (EB.U (fun _ => (1:ℝ)/2) 5 0.60 1) (EB.U (fun _ => (1:ℝ)/2) 6 0.40 1)
      (EB.U (fun _ => (1:ℝ)/2) 7 0.5 2) (EB.U (fun _ => (1:ℝ)/2) 8 1 7)
      0 0 0 0 9).1 (EB.sampleRest "summer" "none" (fun _ => (1:ℝ)/2)
      (EB.U (fun _ => (1:ℝ)/2) 0 293 303) (EB.U (fun _ => (1:ℝ)/2) 1 400 800)
      (EB.U (fun _ => (1:ℝ)/2) 0 293 303 + EB.U (fun _ => (1:ℝ)/2) 2 (-4) (-2))
      (EB.U (fun _ => (1:ℝ)/2) 3 0.5 1.5) (EB.U (fun _ => (1:ℝ)/2) 4 1.5 3)
      (EB.U (fun _ => (1:ℝ)/2) 5 0.60 1) (EB.U (fun _ => (1:ℝ)/2) 6 0.40 1)
      (EB.U (fun _ => (1:ℝ)/2) 7 0.5 2) (EB.U (fun _ => (1:ℝ)/2) 8 1 7)
      0 0 0 0 9).2
    (fun _ => ⟨by norm_num, by norm_num⟩) sample_summer_none_eval

/-- Counterexample to C7 as stated: in the scenario sampled with
`forest_type = "none"` (a recognised forest type) from the constant unit
stream 1/2, the canopy convective coefficient is the sentinel `1e6`, which
exceeds its claimed cap `25 + 5 * theta_rel`. -/
theorem sample_parameters_h_can_cap_cex :
    (EB.sample_parameters "summer" "none" (fun _ => (1:ℝ)/2) 0).elim False
      (fun pr => 25 + 5 * pr.1.theta_rel < pr.1.h_can) := by
  rw [sample_summer_none_eval]
  show 25 + 5 * (EB.sampleRest "summer" "none" (fun _ => (1:ℝ)/2)
      (EB.U (fun _ => (1:ℝ)/2) 0 293 303) (EB.U (fun _ => (1:ℝ)/2) 1 400 800)
      (EB.U (fun _ => (1:ℝ)/2) 0 293 303 + EB.U (fun _ => (1:ℝ)/2) 2 (-4) (-2))
      (EB.U (fun _ => (1:ℝ)/2) 3 0.5 1.5) (EB.U (fun _ => (1:ℝ)/2) 4 1.5 3)
      (EB.U (fun _ => (1:ℝ)/2) 5 0.60 1) (EB.U (fun _ => (1:ℝ)/2) 6 0.40 1)
      (EB.U (fun _ => (1:ℝ)/2) 7 0.5 2) (EB.U (fun _ => (1:ℝ)/2) 8 1 7)
      0 0 0 0 9).1.theta_rel < (EB.sampleRest "summer" "none" (fun _ => (1:ℝ)/2)
      (EB.U (fun _ => (1:ℝ)/2) 0 293 303) (EB.U (fun _ => (1:ℝ)/2) 1 400 800)
      (EB.U (fun _ => (1:ℝ)/2) 0 293 303 + EB.U (fun _ => (1:ℝ)/2) 2 (-4) (-2))
      (EB.U (fun _ => (1:ℝ)/2) 3 0.5 1.5) (EB.U (fun _ => (1:ℝ)/2) 4 1.5 3)
      (EB.U (fun _ => (1:ℝ)/2) 5 0.60 1) (EB.U (fun _ => (1:ℝ)/2) 6 0.40 1)
      (EB.U (fun _ => (1:ℝ)/2) 7 0.5 2) (EB.U (fun _ => (1:ℝ)/2) 8 1 7)
      0 0 0 0 9).1.h_can
  simp only [EB.sampleRest]
  rw [if_neg (fun hc => hc.1 rfl)]
  norm_num [EB.U]

theorem sample_winter_branch (season forest_type : String) (u : ℕ → ℝ) (i : ℕ)
    (p : EB.Params) (j : ℕ)
    (hs : EB.sample_parameters season forest_type u i = some (p, j)) :
    p.season = EB.strLower season ∧
    (EB.strLower season ≠ "summer" →
      p.T_atm = EB.U u i 258 273 ∧ p.Q_solar = EB.U u (i + 1) 50 200) := by
  obtain ⟨T, Q, Td, ks, ds, RHv, th, uw, dT, ac, A, L, kc, j0, heq, hsum, hwin, hth, hf0, hfp⟩ :=
    sample_parameters_inv season forest_type u i p j hs
  have hp : p = (EB.sampleRest (EB.strLower season) (EB.strLower forest_type) u
      T Q Td ks ds RHv th uw dT ac A L kc j0).1 := congrArg Prod.fst heq
  rw [hp]
  exact ⟨rfl, fun hns => ⟨(hwin hns).1, (hwin hns).2⟩⟩

/-- **C10 (amended).** `sample_parameters` fails (the modelled `ValueError`)
if and only if the lowercased forest type is none of `"coniferous"`,
`"deciduous"`, `"none"`; the season argument is never validated — the call
succeeds for every season string whenever the forest type is recognised, the
lowercased season is stored as given, and any season other than `"summer"`
takes the winter branch of the season-conditioned draws (shown here for the
atmospheric-temperature and solar-irradiance draws).  It is however not
uniformly "treated as winter": the stability factor compares the season to
`"winter"` exactly (see the counterexample). -/
theorem sample_parameters_validation (season forest_type : String)
    (u : ℕ → ℝ) (i : ℕ) :
    (EB.sample_parameters season forest_type u i = none ↔
      ¬ (EB.strLower forest_type = "coniferous" ∨
         EB.strLower forest_type = "deciduous" ∨
         EB.strLower forest_type = "none")) ∧
    (∀ p : EB.Params, ∀ j : ℕ,
      EB.sample_parameters season forest_type u i = some (p, j) →
      p.season = EB.strLower season ∧
      (EB.strLower season ≠ "summer" →
        p.T_atm = EB.U u i 258 273 ∧ p.Q_solar = EB.U u (i + 1) 50 200)) := by
  constructor
  · simp only [EB.sample_parameters]
    by_cases h1 : EB.strLower forest_type = "coniferous"
    · rw [if_pos h1]
      simp [h1]
    · rw [if_neg h1]
      by_cases h2 : EB.strLower forest_type = "deciduous"
      · rw [if_pos h2]
        simp [h2]
      · rw [if_neg h2]
        by_cases h3 : EB.strLower forest_type = "none"
        · rw [if_pos h3]
          simp [h3]
        · rw [if_neg h3]
          simp [h1, h2, h3]
  · exact fun p j hs => sample_winter_branch season forest_type u i p j hs

/-- Counterexample to C10 as stated: the season string `"autumn"` is not
uniformly treated as winter.  With the all-zeros unit stream and
`forest_type = "deciduous"`, the sampled trunk convective coefficient under
season `"autumn"` differs from the one sampled under season `"winter"`,
because the stability factor tests the season against `"winter"` exactly
(an unrecognised season gets the summer-like factor 1). -/
theorem season_treated_as_winter_cex :
    ((EB.sample_parameters "autumn" "deciduous" (fun _ => (0:ℝ)) 0).map
        (fun pr => pr.1.h_trunk)) ≠
      ((EB.sample_parameters "winter" "deciduous" (fun _ => (0:ℝ)) 0).map
        (fun pr => pr.1.h_trunk)) := by
  have ha : EB.strLower "autumn" = "autumn" := by decide
  have hw : EB.strLower "winter" = "winter" := by decide
  have hd : EB.strLower "deciduous" = "deciduous" := by decide
  simp only [EB.sample_parameters, ha, hw, hd]
  rw [if_neg (by decide : ¬ ("deciduous" = "coniferous"))]
  rw [if_neg (by decide : ¬ ("deciduous" = "coniferous"))]
  simp only [if_true]
  simp only [Option.map_some, ne_eq, Option.some.injEq]
  norm_num [EB.sampleRest, EB.stability_factor, EB.U]
  rw [if_neg (by decide : ¬ ("deciduous" = "none"))]
  rw [if_neg (by decide : ¬ ("deciduous" = "none"))]
  rw [if_neg (by decide : ¬ ("autumn" = "winter"))]
  norm_num

theorem dictGet_dictSet_self (d : List (String × ℝ)) (k : String) (v : ℝ) :
    EB.dictGet (EB.dictSet d k v) k = v := by
  induction d with
  | nil => simp [EB.dictSet, EB.dictGet]
  | cons e rest ih =>
      by_cases h : e.1 = k
      · simp [EB.dictSet, EB.dictGet, h]
      · simp [EB.dictSet, EB.dictGet, h, ih]

theorem dictGet_dictSet_ne (d : List (String × ℝ)) (k k' : String) (v : ℝ)
    (h : ¬ k = k') : EB.dictGet (EB.dictSet d k v) k' = EB.dictGet d k' := by
  induction d with
  | nil => simp [EB.dictSet, EB.dictGet, h]
  | cons e rest ih =>
      by_cases he : e.1 = k
      · simp [EB.dictSet, EB.dictGet, he, h]
      · simp only [EB.dictSet, EB.dictGet, he, if_false]
        by_cases he' : e.1 = k'
        · simp [he']
        · simp [he', ih]

theorem mem_dictKeys_dictSet (d : List (String × ℝ)) (k k' : String) (v : ℝ) :
    k' ∈ EB.dictKeys (EB.dictSet d k v) ↔ k' ∈ EB.dictKeys d ∨ k' = k := by
  induction d with
  | nil => simp [EB.dictSet, EB.dictKeys]
  | cons e rest ih =>
      by_cases h : e.1 = k
      · subst h
        simp [EB.dictSet, EB.dictKeys]
        tauto
      · simp [EB.dictSet, EB.dictKeys, h] at ih ⊢
        tauto

theorem dictGet_addComps (comps tgt : List (String × ℝ)) (k : String) :
    EB.dictGet (EB.addComps tgt comps) k = EB.dictGet tgt k + EB.keySum comps k := by
  induction comps generalizing tgt with
  | nil => simp [EB.addComps, EB.keySum]
  | cons e rest ih =>
      simp only [EB.addComps, List.foldl_cons] at ih ⊢
      rw [ih]
      by_cases h : e.1 = k
      · subst h
        rw [dictGet_dictSet_self]
        simp [EB.keySum]
        ring
      · rw [dictGet_dictSet_ne _ _ _ _ h]
        simp [EB.keySum, h]

theorem mem_dictKeys_addComps (comps tgt : List (String × ℝ)) (k : String) :
    k ∈ EB.dictKeys (EB.addComps tgt comps) ↔
      k ∈ EB.dictKeys tgt ∨ k ∈ EB.dictKeys comps := by
  induction comps generalizing tgt with
  | nil => simp [EB.addComps, EB.dictKeys]
  | cons e rest ih =>
      simp only [EB.addComps, List.foldl_cons] at ih ⊢
      rw [ih, mem_dictKeys_dictSet]
      simp [EB.dictKeys]
      tauto

theorem bdGet_bdSet_self (d : List (String × List (String × ℝ))) (n : String)
    (sec : List (String × ℝ)) : EB.bdGet (EB.bdSet d n sec) n = sec := by
  induction d with
  | nil => simp [EB.bdSet, EB.bdGet]
  | cons e rest ih =>
      by_cases h : e.1 = n
      · simp [EB.bdSet, EB.bdGet, h]
      · simp [EB.bdSet, EB.bdGet, h, ih]

theorem bdGet_bdSet_ne (d : List (String × List (String × ℝ))) (n n' : String)
    (sec : List (String × ℝ)) (h : ¬ n = n') :
    EB.bdGet (EB.bdSet d n sec) n' = EB.bdGet d n' := by
  induction d with
  | nil => simp [EB.bdSet, EB.bdGet, h]
  | cons e rest ih =>
      by_cases he : e.1 = n
      · simp [EB.bdSet, EB.bdGet, he, h]
      · simp only [EB.bdSet, EB.bdGet, he, if_false]
        by_cases he' : e.1 = n'
        · simp [he']
        · simp [he', ih]

theorem dictGet_mergeDict (d out : List (String × List (String × ℝ)))
    (node k : String) :
    EB.dictGet (EB.bdGet (EB.mergeDict out d) node) k =
      EB.dictGet (EB.bdGet out node) k + EB.contrib d node k := by
  induction d generalizing out with
  | nil => simp [EB.mergeDict, EB.contrib]
  | cons e rest ih =>
      simp only [EB.mergeDict, List.foldl_cons] at ih ⊢
      rw [ih]
      by_cases h : e.1 = node
      · rw [h, bdGet_bdSet_self, dictGet_addComps]
        simp [EB.contrib, h]
        try ring
      · rw [bdGet_bdSet_ne _ _ _ _ h]
        simp [EB.contrib, h]

theorem mem_dictKeys_mergeDict (d out : List (String × List (String × ℝ)))
    (node k : String) :
    k ∈ EB.dictKeys (EB.bdGet (EB.mergeDict out d) node) ↔
      k ∈ EB.dictKeys (EB.bdGet out node) ∨
      ∃ e ∈ d, e.1 = node ∧ k ∈ EB.dictKeys e.2 := by
  induction d generalizing out with
  | nil => simp [EB.mergeDict]
  | cons e rest ih =>
      simp only [EB.mergeDict, List.foldl_cons] at ih ⊢
      rw [ih]
      by_cases h : e.1 = node
      · rw [h, bdGet_bdSet_self, mem_dictKeys_addComps]
        simp [h]
        try tauto
      · rw [bdGet_bdSet_ne _ _ _ _ h]
        simp [h]
        try tauto

theorem dictGet_foldl_merge (ds : List (List (String × List (String × ℝ))))
    (acc : List (String × List (String × ℝ))) (node k : String) :
    EB.dictGet (EB.bdGet (ds.foldl EB.mergeDict acc) node) k =
      EB.dictGet (EB.bdGet acc node) k +
        (ds.map (fun d => EB.contrib d node k)).sum := by
  induction ds generalizing acc with
  | nil => simp
  | cons d rest ih =>
      simp only [List.foldl_cons, List.map_cons, List.sum_cons]
      rw [ih, dictGet_mergeDict]
      ring

theorem mem_dictKeys_foldl_merge (ds : List (List (String × List (String × ℝ))))
    (acc : List (String × List (String × ℝ))) (node k : String) :
    k ∈ EB.dictKeys (EB.bdGet (ds.foldl EB.mergeDict acc) node) ↔
      k ∈ EB.dictKeys (EB.bdGet acc node) ∨
      ∃ d ∈ ds, ∃ e ∈ d, e.1 = node ∧ k ∈ EB.dictKeys e.2 := by
  induction ds generalizing acc with
  | nil => simp
  | cons d rest ih =>
      simp only [List.foldl_cons]
      rw [ih, mem_dictKeys_mergeDict]
      constructor
      · rintro ((hacc | ⟨e, he, hen, hk⟩) | ⟨d', hd', e, he, hen, hk⟩)
        · exact Or.inl hacc
        · exact Or.inr ⟨d, List.mem_cons_self d rest, e, he, hen, hk⟩
        · exact Or.inr ⟨d', List.mem_cons_of_mem _ hd', e, he, hen, hk⟩
      · rintro (hacc | ⟨d', hd', e, he, hen, hk⟩)
        · exact Or.inl (Or.inl hacc)
        · rcases List.mem_cons.mp hd' with h | h
          · subst h
            exact Or.inl (Or.inr ⟨e, he, hen, hk⟩)
          · exact Or.inr ⟨d', h, e, he, hen, hk⟩

theorem dictGet_divmap (sec : List (String × ℝ)) (k : String) (c : ℝ) :
    EB.dictGet (sec.map (fun kv => (kv.1, kv.2 / c))) k = EB.dictGet sec k / c := by
  induction sec with
  | nil => simp [EB.dictGet]
  | cons e rest ih =>
      by_cases h : e.1 = k <;> simp [EB.dictGet, h, ih]

theorem bdGet_divmap (out : List (String × List (String × ℝ))) (node : String)
    (c : ℝ) :
    EB.bdGet (out.map (fun e => (e.1, e.2.map (fun kv => (kv.1, kv.2 / c))))) node =
      (EB.bdGet out node).map (fun kv => (kv.1, kv.2 / c)) := by
  induction out with
  | nil => simp [EB.bdGet]
  | cons e rest ih =>
      by_cases h : e.1 = node <;> simp [EB.bdGet, h, ih]

theorem dictKeys_divmap (sec : List (String × ℝ)) (c : ℝ) :
    EB.dictKeys (sec.map (fun kv => (kv.1, kv.2 / c))) = EB.dictKeys sec := by
  induction sec <;> simp [EB.dictKeys, *]

/-- **C4.** For a nonempty list of flux breakdowns, `average_flux_dicts`
stores, at every node/term cell, the sum of that cell's values over ALL
breakdowns (a breakdown lacking the node or the term contributing 0)
divided by the TOTAL breakdown count `n` — so a term present in only `m` of
`n` breakdowns is divided by `n`, not `m` — and a node/term key is present
in the output exactly when it is present in at least one input breakdown. -/
theorem average_flux_dicts_spec (ds : List (List (String × List (String × ℝ))))
    (node k : String) (hne : ds ≠ []) :
    EB.dictGet (EB.bdGet (EB.average_flux_dicts ds) node) k =
      (ds.map (fun d => EB.contrib d node k)).sum / (ds.length : ℝ) ∧
    (k ∈ EB.dictKeys (EB.bdGet (EB.average_flux_dicts ds) node) ↔
      ∃ d ∈ ds, ∃ e ∈ d, e.1 = node ∧ k ∈ EB.dictKeys e.2) := by
  have hn : ds.length ≠ 0 := fun h => hne (List.length_eq_zero.mp h)
  unfold EB.average_flux_dicts
  rw [if_pos hn]
  constructor
  · rw [bdGet_divmap, dictGet_divmap, dictGet_foldl_merge]
    simp [EB.bdGet, EB.dictGet]
  · rw [bdGet_divmap, dictKeys_divmap, mem_dictKeys_foldl_merge]
    simp [EB.bdGet, EB.dictKeys]

/-- Witness for C4: two breakdowns, only the first containing a snow section
with term value 2; the aggregated snow term is 2/2 = S/n with n = 2, k = 1. -/
theorem average_flux_dicts_spec_witness :
    EB.dictGet (EB.bdGet (EB.average_flux_dicts
        [[("snow", [("a", (2:ℝ))])], [("soil", [("a", (4:ℝ))])]]) "snow") "a" =
      ([[("snow", [("a", (2:ℝ))])], [("soil", [("a", (4:ℝ))])]].map
        (fun d => EB.contrib d "snow" "a")).sum /
        (([[("snow", [("a", (2:ℝ))])], [("soil", [("a", (4:ℝ))])]].length : ℝ)) ∧
    ("a" ∈ EB.dictKeys (EB.bdGet (EB.average_flux_dicts
        [[("snow", [("a", (2:ℝ))])], [("soil", [("a", (4:ℝ))])]]) "snow") ↔
      ∃ d ∈ [[("snow", [("a", (2:ℝ))])], [("soil", [("a", (4:ℝ))])]],
        ∃ e ∈ d, e.1 = "snow" ∧ "a" ∈ EB.dictKeys e.2) :=
  average_flux_dicts_spec [[("snow", [("a", (2:ℝ))])], [("soil", [("a", (4:ℝ))])]]
    "snow" "a" (List.cons_ne_nil _ _)

theorem run_monte_carlo_filter (solve : EB.Solver) (season forest_type : String)
    (maxiter : ℕ) (u : ℕ → ℝ) :
    ∀ (n i : ℕ) (ts : List (EB.SolveResult × EB.Params)),
      EB.trialList solve season forest_type maxiter u n i = some ts →
      EB.run_monte_carlo solve n season forest_type maxiter u i =
        some (((ts.filter (fun t => decide (EB.accepted t.1 t.2))).map (fun t => t.1.x)),
              ((ts.filter (fun t => decide (EB.accepted t.1 t.2))).map (fun t => t.2))) := by
  intro n
  induction n with
  | zero =>
      intro i ts hts
      simp only [EB.trialList, Option.some.injEq] at hts
      subst hts
      simp [EB.run_monte_carlo]
  | succ m ih =>
      intro i ts hts
      simp only [EB.trialList] at hts
      cases hrt : EB.runTrial solve season forest_type maxiter u i with
      | none => rw [hrt] at hts; exact absurd hts (by simp)
      | some tj =>
          rw [hrt] at hts
          obtain ⟨⟨r, p⟩, j⟩ := tj
          dsimp only at hts
          cases htl : EB.trialList solve season forest_type maxiter u m j with
          | none => rw [htl] at hts; exact absurd hts (by simp)
          | some ts' =>
              rw [htl] at hts
              simp only [Option.some.injEq] at hts
              subst hts
              have hrun := ih j ts' htl
              simp only [EB.run_monte_carlo, hrt, hrun]
              by_cases hacc : EB.accepted r p
              · simp [hacc]
              · simp [hacc]

/-- **C5.** Given that all `n` trials sample successfully (`trialList` yields
the trial outcomes `ts`), `run_monte_carlo` returns exactly the two
index-aligned lists of solved states and scenarios of the accepted trials,
in order; a trial is accepted iff the optimiser reports success, all four
residual magnitudes at the solution are below `5e-3`, and the solved soil
temperature is within 20 K of the atmospheric temperature; when no trial is
accepted the result is two empty lists, not an exception. -/
theorem run_monte_carlo_spec (solve : EB.Solver) (n : ℕ)
    (season forest_type : String) (maxiter : ℕ) (u : ℕ → ℝ) (i : ℕ)
    (ts : List (EB.SolveResult × EB.Params))
    (hts : EB.trialList solve season forest_type maxiter u n i = some ts) :
    EB.run_monte_carlo solve n season forest_type maxiter u i =
      some (((ts.filter (fun t => decide (EB.accepted t.1 t.2))).map (fun t => t.1.x)),
            ((ts.filter (fun t => decide (EB.accepted t.1 t.2))).map (fun t => t.2))) ∧
    (∀ r : EB.SolveResult, ∀ p : EB.Params,
      EB.accepted r p ↔
        (r.success = true ∧ (∀ m : Fin 4, |r.fval m| < 5e-3) ∧
          |r.x 3 - p.T_atm| ≤ 20)) ∧
    ((∀ t ∈ ts, ¬ EB.accepted t.1 t.2) →
      EB.run_monte_carlo solve n season forest_type maxiter u i = some ([], [])) := by
  refine ⟨run_monte_carlo_filter solve season forest_type maxiter u n i ts hts, ?_, ?_⟩
  · intro r p
    unfold EB.accepted
    constructor
    · rintro ⟨h1, h2⟩
      rw [not_not] at h1
      exact ⟨h1.1, h1.2, not_lt.mp h2⟩
    · rintro ⟨h1, h2, h3⟩
      exact ⟨not_not.mpr ⟨h1, h2⟩, not_lt.mpr h3⟩
  · intro hnone
    have hfil : ts.filter (fun t => decide (EB.accepted t.1 t.2)) = [] := by
      rw [List.filter_eq_nil_iff]
      intro t ht
      simpa using hnone t ht
    rw [run_monte_carlo_filter solve season forest_type maxiter u n i ts hts, hfil]
    simp

/-- Witness for C5 with zero trials: the trial list is empty and the driver
returns two empty lists. -/
theorem run_monte_carlo_spec_witness :
    EB.run_monte_carlo (fun _ _ _ => ⟨false, fun _ => 0, fun _ => 0⟩) 0
        "summer" "none" 2500 (fun _ => (0:ℝ)) 0 =
      some ((([] : List (EB.SolveResult × EB.Params)).filter
          (fun t => decide (EB.accepted t.1 t.2))).map (fun t => t.1.x),
        (([] : List (EB.SolveResult × EB.Params)).filter
          (fun t => decide (EB.accepted t.1 t.2))).map (fun t => t.2)) ∧
    (∀ r : EB.SolveResult, ∀ p : EB.Params,
      EB.accepted r p ↔
        (r.success = true ∧ (∀ m : Fin 4, |r.fval m| < 5e-3) ∧
          |r.x 3 - p.T_atm| ≤ 20)) ∧
    ((∀ t ∈ ([] : List (EB.SolveResult × EB.Params)), ¬ EB.accepted t.1 t.2) →
      EB.run_monte_carlo (fun _ _ _ => ⟨false, fun _ => 0, fun _ => 0⟩) 0
        "summer" "none" 2500 (fun _ => (0:ℝ)) 0 = some ([], [])) :=
  run_monte_carlo_spec (fun _ _ _ => ⟨false, fun _ => 0, fun _ => 0⟩) 0
    "summer" "none" 2500 (fun _ => (0:ℝ)) 0 [] rfl

/-- **C8.** Two runs of `run_monte_carlo` with the same seed and the same
`n_runs`, `season`, `forest_type` and `maxiter` arguments produce identical
outputs (solved-state list and scenario list, in order).  The random stream
is a deterministic function of the seed (`prng`), and the optimiser is a
deterministic function of its inputs, as in the source, where a fresh
`default_rng(seed)` is the only randomness and no other mutable state is
read. -/
theorem run_monte_carlo_deterministic (solve : EB.Solver) (prng : ℤ → ℕ → ℝ)
    (seed1 seed2 : ℤ) (n : ℕ) (season forest_type : String) (maxiter : ℕ)
    (hseed : seed1 = seed2) :
    EB.run_monte_carlo solve n season forest_type maxiter (prng seed1) 0 =
      EB.run_monte_carlo solve n season forest_type maxiter (prng seed2) 0 := by
  rw [hseed]

/-- Witness for C8 at a concrete seed and solver. -/
theorem run_monte_carlo_deterministic_witness :
    EB.run_monte_carlo (fun _ _ _ => ⟨false, fun _ => 0, fun _ => 0⟩) 50
        "winter" "coniferous" 2500 ((fun _ _ => (0:ℝ)) (7 : ℤ)) 0 =
      EB.run_monte_carlo (fun _ _ _ => ⟨false, fun _ => 0, fun _ => 0⟩) 50
        "winter" "coniferous" 2500 ((fun _ _ => (0:ℝ)) (7 : ℤ)) 0 :=
  run_monte_carlo_deterministic (fun _ _ _ => ⟨false, fun _ => 0, fun _ => 0⟩)
    (fun _ _ => (0:ℝ)) 7 7 50 "winter" "coniferous" 2500 rfl
